import Mathlib

/-!
Shallow embedding of the `sp_ai` widget's payload-normalization engine and
inbound-event state machine (web/src/sp_ai_widget.ts, the full v2 generation,
together with the schemas of web/src/sp_ai_data.ts).

JavaScript runtime values are modelled by `JVal`; JS numbers by `JNum`
(rationals plus NaN/±Infinity; IEEE-754 rounding of arithmetic is not modelled,
which is exact for every integral quantity the widget formats). A JS object is
a finite association list with pairwise-distinct keys; property access on a
missing key yields `JVal.undef`. Property access on `null`/`undefined` throws
in JS; the model's `jget` totalizes it to `undef`, so every theorem about
whole-payload normalization restricts its payload to non-nullish values, the
only inputs the source can actually evaluate on.
-/

namespace SpAi

/-- A JavaScript number: NaN, +Infinity, -Infinity, or a finite value
(modelled exactly as a rational). -/
inductive JNum where
  | nan
  | inf
  | ninf
  | val (q : ℚ)
deriving DecidableEq, Repr

/-- `Number.isFinite`. -/
def JNum.isFinite : JNum → Bool
  | .val _ => true
  | _ => false

/-- `n < 0` in JS (false on NaN). -/
def JNum.ltZero : JNum → Bool
  | .val q => q < 0
  | .ninf => true
  | _ => false

/-- A JavaScript runtime value (the subset deliverable as message/event data,
plus `undefined` for absent fields). -/
inductive JVal where
  | undef
  | null
  | bool (b : Bool)
  | num (n : JNum)
  | str (s : String)
  | arr (elems : List JVal)
  | obj (fields : List (String × JVal))
deriving Repr

/-- `v === null` (used by `activate`). -/
def JVal.isNull : JVal → Bool
  | .null => true
  | _ => false

/-- `v === null || v === undefined` — the values JS property access throws on
and the `??` operator skips. -/
def jIsNullish : JVal → Bool
  | .null => true
  | .undef => true
  | _ => false

/-- JS truthiness. -/
def jTruthy : JVal → Bool
  | .undef => false
  | .null => false
  | .bool b => b
  | .num .nan => false
  | .num (.val q) => q ≠ 0
  | .num .inf => true
  | .num .ninf => true
  | .str s => s ≠ ""
  | .arr _ => true
  | .obj _ => true

/-- `typeof v === "object" && v` (arrays included, `null` excluded by the
truthiness guard the source always pairs the check with). -/
def jIsRecordLike : JVal → Bool
  | .arr _ => true
  | .obj _ => true
  | _ => false

/-- A plain object, the only shape `z.object(...)` accepts. -/
def jIsPlainObj : JVal → Bool
  | .obj _ => true
  | _ => false

/-- Property read `v[k]`: assoc-list lookup on objects (keys are unique, so
first match is the match), `undefined` on every other shape. On `null` and
`undefined` JS would throw; see the module docstring. -/
def jget : JVal → String → JVal
  | .obj fields, k => ((fields.find? (fun p => p.1 = k)).map (fun p => p.2)).getD .undef
  | _, _ => (.undef)

/-- `Object.hasOwn(v, k)`. -/
def jHasOwn : JVal → String → Bool
  | .obj fields, k => fields.any (fun p => p.1 = k)
  | _, _ => false

/-- `a ?? b`. -/
def jCoalesce (a b : JVal) : JVal :=
  if jIsNullish a then b else a

/-- `a || b`. -/
def jOr (a b : JVal) : JVal :=
  if jTruthy a then a else b

/-- `v?.k` — optional chaining, then plain property access. -/
def jOptChain (v : JVal) (k : String) : JVal :=
  if jIsNullish v then .undef else jget v k

/-- `Array.isArray(v) ? v : []`, as a list of elements. -/
def jAsArray : JVal → List JVal
  | .arr xs => xs
  | _ => []

/-- JS `\s` on the characters the widget can see (ASCII whitespace; the
Unicode space classes are not modelled). -/
def jsWhitespaceChar (c : Char) : Bool :=
  c = ' ' || c = '\t' || c = '\n' || c = '\r' || c.toNat = 11 || c.toNat = 12

/-- `s.trim()`: strip leading and trailing whitespace. -/
def jsTrim (s : String) : String :=
  String.mk (((s.data.dropWhile jsWhitespaceChar).reverse.dropWhile jsWhitespaceChar).reverse)

/-- `s.toLowerCase()` (ASCII case folding; the widget's synonym tables are
ASCII). -/
def jsToLowerCase (s : String) : String :=
  String.mk (s.data.map Char.toLower)

/-- `s.startsWith(pre)`. -/
def jsStartsWith (s pre : String) : Bool :=
  s.data.take pre.data.length == pre.data

/-- `s.endsWith(suf)`. -/
def jsEndsWith (s suf : String) : Bool :=
  s.data.drop (s.data.length - suf.data.length) == suf.data

/-! Section: Number formatting primitives -/

/-- `Math.round q` for a finite value: round half toward +Infinity. -/
def jsRound (q : ℚ) : ℤ := ⌊q + 1 / 2⌋

/-- Truncation toward zero (JS `%` is computed from it). -/
def jsTrunc (q : ℚ) : ℤ := if q < 0 then ⌈q⌉ else ⌊q⌋

/-- JS remainder `a % b` for finite operands. -/
def jsMod (a b : ℚ) : ℚ := a - b * jsTrunc (a / b)

/-- `q.toFixed(0)`: nearest integer, ties to the larger. -/
def jsToFixed0 (q : ℚ) : String := toString ⌊q + 1 / 2⌋

/-- `q.toFixed(1)` for `q ≥ 0` (the only way the widget calls it). -/
def jsToFixed1 (q : ℚ) : String :=
  let n : ℤ := ⌊q * 10 + 1 / 2⌋
  toString (n / 10) ++ "." ++ toString (n % 10)

/-- Fractional decimal digits of `0 ≤ r < 1`, up to the given fuel (JS prints
the shortest round-tripping decimal of a double; for the terminating decimals
the widget can produce this agrees, and no claim depends on the rest). -/
def ratFracDigits : ℕ → ℚ → String
  | 0, _ => ""
  | fuel + 1, r =>
    if r = 0 then ""
    else
      let d : ℤ := ⌊r * 10⌋
      toString d ++ ratFracDigits fuel (r * 10 - d)

/-- Decimal rendering of a finite JS number. -/
def ratDecimalString (q : ℚ) : String :=
  if q.den = 1 then toString q.num
  else
    let sign := if q < 0 then "-" else ""
    let a := |q|
    let ip : ℤ := ⌊a⌋
    sign ++ toString ip ++ "." ++ ratFracDigits 40 (a - ip)

/-- `String(n)` for a number. -/
def jnumToString : JNum → String
  | .nan => "NaN"
  | .inf => "Infinity"
  | .ninf => "-Infinity"
  | .val q => ratDecimalString q

mutual

/-- `String(v)` (string coercion; arrays stringify as their comma-joined
elements with nullish elements blank, objects as "[object Object]"). -/
def jToString : JVal → String
  | .undef => "undefined"
  | .null => "null"
  | .bool b => if b then "true" else "false"
  | .num n => jnumToString n
  | .str s => s
  | .arr xs => String.intercalate "," (jToStringElems xs)
  | .obj _ => "[object Object]"

def jToStringElems : List JVal → List String
  | [] => []
  | x :: xs => (if jIsNullish x then "" else jToString x) :: jToStringElems xs

end

/-! Section: JSON.stringify / JSON.parse

`stringify_unknown` and `try_pretty_json` in the source delegate to the
platform's `JSON.stringify(value, null, 2)` and `JSON.parse`; both are modelled
here over `JVal` (numbers print via `ratDecimalString`, and a `\uXXXX` escape
denoting an unpaired surrogate falls back to the null scalar, the one place the
model approximates the platform). -/

/-- One hex digit. -/
def hexDigit (n : ℕ) : Char :=
  if n < 10 then Char.ofNat (48 + n) else Char.ofNat (87 + (n % 16))

/-- Four-hex-digit rendering of a code unit. -/
def hex4 (n : ℕ) : String :=
  String.mk [hexDigit (n / 4096 % 16), hexDigit (n / 256 % 16),
    hexDigit (n / 16 % 16), hexDigit (n % 16)]

/-- JSON string escaping of one character. -/
def jsonEscapeChar (c : Char) : String :=
  if c = '"' then "\\\""
  else if c = '\\' then "\\\\"
  else if c = '\n' then "\\n"
  else if c = '\t' then "\\t"
  else if c = '\r' then "\\r"
  else if c.toNat = 8 then "\\b"
  else if c.toNat = 12 then "\\f"
  else if c.toNat < 32 then "\\u" ++ hex4 c.toNat
  else String.singleton c

/-- A JSON string literal for `s`. -/
def jsonQuote (s : String) : String :=
  "\"" ++ String.join (s.data.map jsonEscapeChar) ++ "\""

/-- `2 * depth` spaces, the indentation JSON.stringify uses for indent 2. -/
def jsonIndent (depth : ℕ) : String :=
  String.mk (List.replicate (2 * depth) ' ')

mutual

/-- `JSON.stringify(v, null, 2)` at nesting depth `depth`; `none` is JS
`undefined` (top-level `undefined` only — inside arrays it prints as `null`,
inside objects the key is omitted). -/
def jsonStringify (depth : ℕ) : JVal → Option String
  | .undef => none
  | .null => some "null"
  | .bool b => some (if b then "true" else "false")
  | .num (.val q) => some (ratDecimalString q)
  | .num _ => some "null"
  | .str s => some (jsonQuote s)
  | .arr xs =>
    match jsonStringifyElems (depth + 1) xs with
    | [] => some "[]"
    | items =>
      some ("[\n" ++ String.intercalate ",\n" (items.map (fun s => jsonIndent (depth + 1) ++ s))
        ++ "\n" ++ jsonIndent depth ++ "]")
  | .obj fs =>
    match jsonStringifyFields (depth + 1) fs with
    | [] => some "\x7b\x7d"
    | items =>
      some ("\x7b\n" ++ String.intercalate ",\n" (items.map (fun s => jsonIndent (depth + 1) ++ s))
        ++ "\n" ++ jsonIndent depth ++ "\x7d")

def jsonStringifyElems (depth : ℕ) : List JVal → List String
  | [] => []
  | x :: xs => ((jsonStringify depth x).getD "null") :: jsonStringifyElems depth xs

def jsonStringifyFields (depth : ℕ) : List (String × JVal) → List String
  | [] => []
  | (k, v) :: fs =>
    match jsonStringify depth v with
    | none => jsonStringifyFields depth fs
    | some s => (jsonQuote k ++ ": " ++ s) :: jsonStringifyFields depth fs

end

/-- `stringify_unknown` (sp_ai_widget.ts): strings pass through, everything
else is `JSON.stringify(value, null, 2)` — which is `undefined` (here `none`)
exactly on `undefined` input; the source's `catch` branch is unreachable for
data values. -/
def stringify_unknown : JVal → Option String
  | .str s => some s
  | v => jsonStringify 0 v

/-! Subsection: A strict JSON parser (the model of `JSON.parse`) -/

/-- JSON whitespace. -/
def jsonWs (c : Char) : Bool :=
  c = ' ' || c = '\t' || c = '\n' || c = '\r'

/-- Insert a parsed object member: a duplicate key keeps its first position
but takes the later value, as in JS. -/
def jsonObjInsert (fields : List (String × JVal)) (k : String) (v : JVal) :
    List (String × JVal) :=
  if fields.any (fun p => p.1 = k) then
    fields.map (fun p => if p.1 = k then (k, v) else p)
  else
    fields ++ [(k, v)]

/-- Decimal digits to a natural number (with their count). -/
def digitsToNat (cs : List Char) : ℕ :=
  cs.foldl (fun acc c => acc * 10 + (c.toNat - 48)) 0

/-- Parse a run of decimal digits. -/
def spanDigits (cs : List Char) : List Char × List Char :=
  (cs.takeWhile (fun c => c.isDigit), cs.dropWhile (fun c => c.isDigit))

/-- Parse the integer part of a JSON number (no leading zero unless "0"). -/
def jsonParseIntPart (cs : List Char) : Option (ℕ × List Char) :=
  match spanDigits cs with
  | ([], _) => none
  | (ds, rest) =>
    if ds.length > 1 && ds.headD '0' = '0' then none
    else some (digitsToNat ds, rest)

/-- Parse an optional fraction part (`.` must be followed by a digit). -/
def jsonParseFrac (cs : List Char) : Option (List Char × List Char) :=
  match cs with
  | '.' :: more =>
    match spanDigits more with
    | ([], _) => none
    | (ds, r) => some (ds, r)
  | _ => some ([], cs)

/-- Parse an optional exponent part and scale the value accordingly. -/
def jsonParseExpPart (base : ℚ) (cs : List Char) : Option (ℚ × List Char) :=
  match cs with
  | 'e' :: more => jsonParseExpDigits base more
  | 'E' :: more => jsonParseExpDigits base more
  | _ => some (base, cs)
where
  jsonParseExpDigits (base : ℚ) (cs : List Char) : Option (ℚ × List Char) :=
    let (eneg, ds) :=
      match cs with
      | '+' :: more => (false, more)
      | '-' :: more => (true, more)
      | _ => (false, cs)
    match spanDigits ds with
    | ([], _) => none
    | (es, rest) =>
      let e := digitsToNat es
      some (if eneg then base / (10 : ℚ) ^ e else base * (10 : ℚ) ^ e, rest)

/-- Parse a JSON number after an optional leading minus sign was consumed. -/
def jsonParseNumTail (neg : Bool) (cs : List Char) : Option (ℚ × List Char) :=
  match jsonParseIntPart cs with
  | none => none
  | some (ip, rest) =>
    match jsonParseFrac rest with
    | none => none
    | some (fracDigits, rest2) =>
      let base : ℚ := (ip : ℚ) + (digitsToNat fracDigits : ℚ) / ((10 : ℚ) ^ fracDigits.length)
      jsonParseExpPart (if neg then -base else base) rest2

/-- A hexadecimal digit character. -/
def isHexDigitChar (c : Char) : Bool :=
  c.isDigit || (97 ≤ c.toNat && c.toNat ≤ 102) || (65 ≤ c.toNat && c.toNat ≤ 70)

/-- Parse a JSON string body after the opening quote; fueled by input length. -/
def jsonParseStringBody : ℕ → List Char → Option (String × List Char)
  | 0, _ => none
  | _ + 1, [] => none
  | fuel + 1, c :: rest =>
    if c = '"' then some ("", rest)
    else if c = '\\' then
      match rest with
      | [] => none
      | e :: rest2 =>
        let esc : Option (String × List Char) :=
          if e = '"' then some ("\"", rest2)
          else if e = '\\' then some ("\\", rest2)
          else if e = '/' then some ("/", rest2)
          else if e = 'b' then some (String.singleton (Char.ofNat 8), rest2)
          else if e = 'f' then some (String.singleton (Char.ofNat 12), rest2)
          else if e = 'n' then some ("\n", rest2)
          else if e = 'r' then some ("\r", rest2)
          else if e = 't' then some ("\t", rest2)
          else if e = 'u' then
            match rest2 with
            | h1 :: h2 :: h3 :: h4 :: rest3 =>
              match isHexDigitChar h1 && isHexDigitChar h2 && isHexDigitChar h3 && isHexDigitChar h4 with
              | true =>
                let hv := fun (c : Char) =>
                  if c.isDigit then c.toNat - 48
                  else if c.toNat ≥ 97 then c.toNat - 87 else c.toNat - 55
                some (String.singleton (Char.ofNat (((hv h1 * 16 + hv h2) * 16 + hv h3) * 16 + hv h4)), rest3)
              | false => none
            | _ => none
          else none
        match esc with
        | none => none
        | some (s, rest2) =>
          match jsonParseStringBody fuel rest2 with
          | none => none
          | some (tail, rest3) => some (s ++ tail, rest3)
    else if c.toNat < 32 then none
    else
      match jsonParseStringBody fuel rest with
      | none => none
      | some (tail, rest2) => some (String.singleton c ++ tail, rest2)

mutual

/-- Parse one JSON value; fueled by input length. -/
def jsonParseValue : ℕ → List Char → Option (JVal × List Char)
  | 0, _ => none
  | fuel + 1, cs =>
    match cs.dropWhile jsonWs with
    | [] => none
    | c :: rest =>
      if c = '"' then
        match jsonParseStringBody (rest.length + 1) rest with
        | none => none
        | some (s, rest2) => some (.str s, rest2)
      else if c.toNat = 123 then
        match (rest.dropWhile jsonWs) with
        | d :: rest2 =>
          if d.toNat = 125 then some (.obj [], rest2)
          else jsonParseMembers fuel (d :: rest2) []
        | [] => none
      else if c = '[' then
        match (rest.dropWhile jsonWs) with
        | d :: rest2 =>
          if d = ']' then some (.arr [], rest2)
          else jsonParseItems fuel (d :: rest2) []
        | [] => none
      else if c = 't' then
        match rest with
        | 'r' :: 'u' :: 'e' :: rest2 => some (.bool true, rest2)
        | _ => none
      else if c = 'f' then
        match rest with
        | 'a' :: 'l' :: 's' :: 'e' :: rest2 => some (.bool false, rest2)
        | _ => none
      else if c = 'n' then
        match rest with
        | 'u' :: 'l' :: 'l' :: rest2 => some (.null, rest2)
        | _ => none
      else if c = '-' then
        match jsonParseNumTail true rest with
        | none => none
        | some (q, rest2) => some (.num (.val q), rest2)
      else if c.isDigit then
        match jsonParseNumTail false (c :: rest) with
        | none => none
        | some (q, rest2) => some (.num (.val q), rest2)
      else none

/-- Parse array items (after the opening bracket, first item pending). -/
def jsonParseItems (fuel : ℕ) (cs : List Char) (acc : List JVal) :
    Option (JVal × List Char) :=
  match fuel with
  | 0 => none
  | fuel + 1 =>
    match jsonParseValue fuel cs with
    | none => none
    | some (v, rest) =>
      match rest.dropWhile jsonWs with
      | ',' :: rest2 => jsonParseItems fuel rest2 (acc ++ [v])
      | ']' :: rest2 => some (.arr (acc ++ [v]), rest2)
      | _ => none

/-- Parse object members (after the opening brace, first member pending). -/
def jsonParseMembers (fuel : ℕ) (cs : List Char) (acc : List (String × JVal)) :
    Option (JVal × List Char) :=
  match fuel with
  | 0 => none
  | fuel + 1 =>
    match cs.dropWhile jsonWs with
    | '"' :: rest =>
      match jsonParseStringBody (rest.length + 1) rest with
      | none => none
      | some (k, rest2) =>
        match rest2.dropWhile jsonWs with
        | ':' :: rest3 =>
          match jsonParseValue fuel rest3 with
          | none => none
          | some (v, rest4) =>
            match rest4.dropWhile jsonWs with
            | ',' :: rest5 => jsonParseMembers fuel rest5 (jsonObjInsert acc k v)
            | d :: rest5 =>
              if d.toNat = 125 then some (.obj (jsonObjInsert acc k v), rest5)
              else none
            | [] => none
        | _ => none
    | _ => none

end

/-- `JSON.parse s` (strict JSON; `none` is a thrown SyntaxError). -/
def jsonParse (s : String) : Option JVal :=
  match jsonParseValue (s.length + 1) s.data with
  | none => none
  | some (v, rest) =>
    if rest.dropWhile jsonWs = [] then some v else none

/-- `try_pretty_json` (sp_ai_widget.ts): pretty-print text that both looks like
and parses as JSON; `none` is the source's `undefined`. -/
def try_pretty_json (text : String) : Option String :=
  let trimmed := jsTrim text
  if trimmed = "" then none
  else
    let looks_like_json :=
      (jsStartsWith trimmed "\x7b" && jsEndsWith trimmed "\x7d") ||
      (jsStartsWith trimmed "[" && jsEndsWith trimmed "]")
    if !looks_like_json then none
    else
      match jsonParse trimmed with
      | none => none
      | some parsed => jsonStringify 0 parsed

/-! Section: Presentation formatting (sp_ai_widget.ts) -/

/-- `format_duration_ms` (sp_ai_widget.ts:178). The source starts with
`!Number.isFinite(x) || x < 0`; here the non-finite cases are the non-`val`
constructors. -/
def format_duration_ms : JNum → String
  | .nan => ""
  | .inf => ""
  | .ninf => ""
  | .val q =>
    if q < 0 then ""
    else if q < 1000 then toString (jsRound q) ++ "ms"
    else
      let seconds := q / 1000
      if seconds < 60 then
        (if seconds < 10 then jsToFixed1 seconds else jsToFixed0 seconds) ++ "s"
      else
        let minutes : ℤ := ⌊seconds / 60⌋
        let rem_seconds : ℤ := jsRound (jsMod seconds 60)
        toString minutes ++ "m " ++ toString rem_seconds ++ "s"

/-- `format_runtime_sec` (sp_ai_widget.ts:377). -/
def format_runtime_sec : JNum → String
  | .nan => ""
  | .inf => ""
  | .ninf => ""
  | .val q =>
    if q < 0 then ""
    else if q < 60 then
      (if q < 10 then jsToFixed1 q else jsToFixed0 q) ++ "s"
    else
      let minutes : ℤ := ⌊q / 60⌋
      let rem_seconds : ℤ := jsRound (jsMod q 60)
      toString minutes ++ "m " ++ toString rem_seconds ++ "s"

/-- `format_tokens` (sp_ai_widget.ts:391). -/
def format_tokens : JNum → String
  | .nan => ""
  | .inf => ""
  | .ninf => ""
  | .val q =>
    if q < 0 then ""
    else if q ≥ 1000000 then jsToFixed1 (q / 1000000) ++ "M tok"
    else if q ≥ 1000 then jsToFixed1 (q / 1000) ++ "k tok"
    else toString (jsRound q) ++ " tok"

/-- The result shape of the status normalizers: a status class plus a
human-readable label. -/
structure StatusResult where
  status : String
  label : String
deriving DecidableEq, Repr

/-- `normalize_plan_step_status` (sp_ai_widget.ts:197). -/
def normalize_plan_step_status (raw_status : String) : StatusResult :=
  let raw := jsTrim raw_status
  let s := jsToLowerCase raw
  if s ∈ ["ok", "success", "completed", "complete", "done"] then
    ⟨"ok", "Done"⟩
  else if s ∈ ["error", "failed", "failure"] then
    ⟨"error", "Error"⟩
  else if s ∈ ["running", "in_progress", "in-progress", "started"] then
    ⟨"running", "In progress"⟩
  else if s ∈ ["pending", "queued", "queue", "todo"] then
    ⟨"pending", "Todo"⟩
  else
    ⟨"unknown", if raw = "" then "" else raw⟩

/-- `normalize_subagent_status` (sp_ai_widget.ts:405). -/
def normalize_subagent_status (raw_status : String) : StatusResult :=
  let raw := jsTrim raw_status
  let s := jsToLowerCase raw
  if s ∈ ["ok", "success", "completed", "complete"] then
    ⟨"ok", "OK"⟩
  else if s ∈ ["error", "failed", "failure"] then
    ⟨"error", "Error"⟩
  else if s ∈ ["running", "in_progress", "in-progress", "started"] then
    ⟨"running", "Running"⟩
  else
    ⟨"unknown", if raw = "" then "Unknown" else raw⟩

/-- `normalize_background_task_status` (sp_ai_widget.ts:422). -/
def normalize_background_task_status (raw_status : String) : StatusResult :=
  let raw := jsTrim raw_status
  let s := jsToLowerCase raw
  if s ∈ ["ok", "success", "completed", "complete"] then
    ⟨"ok", "OK"⟩
  else if s ∈ ["error", "failed", "failure"] then
    ⟨"error", "Error"⟩
  else if s ∈ ["running", "in_progress", "in-progress", "started"] then
    ⟨"running", "Running"⟩
  else if s ∈ ["pending", "queued", "queue"] then
    ⟨"pending", "Pending"⟩
  else if s ∈ ["aborted", "canceled", "cancelled"] then
    ⟨"aborted", "Aborted"⟩
  else
    ⟨"unknown", if raw = "" then "Unknown" else raw⟩

/-- `default_title_for_turn_kind` (sp_ai_widget.ts:445). Declared over strings
in the source but invoked on the raw `turn.kind` value, which is untyped at
runtime; the `===` comparisons are string-literal matches. -/
def default_title_for_turn_kind : JVal → String
  | .str "subagent_group" => "Subagents"
  | .str "tool" => "Tool"
  | .str "assistant" => "Assistant"
  | _ => "Agent output"

/-- `block_label` (sp_ai_widget.ts:753). -/
def block_label (kind : String) (channel : String) : String :=
  if kind = "markdown" then "Markdown"
  else if kind = "text" then "Text"
  else if kind = "code" then "Code"
  else if kind = "diff" then "Diff"
  else if kind = "json" then "JSON"
  else if kind = "table" then "Table"
  else if kind = "context_usage" then "Context usage"
  else if kind = "file_tree" then "File tree"
  else if kind = "memory_blocks" then "Memory blocks"
  else if kind = "subagent_group" then "Subagent group"
  else if kind = "background_tasks" ∨ kind = "bash_tasks" then "Background tasks"
  else if kind = "queue" then "Queue"
  else if kind = "plan" then "Plan"
  else if kind = "todo" then "Todo"
  else if kind = "stream" ∧ channel = "stderr" then "Stderr"
  else if kind = "stream" then "Stdout"
  else "Block"

/-- `kind_label` (sp_ai_widget.ts:740). -/
def kind_label (kind : String) : String :=
  if kind = "thinking" then "Thinking"
  else if kind = "tool" then "Tool"
  else if kind = "final" then "Final"
  else if kind = "error" then "Error"
  else if kind = "plan" then "Plan"
  else if kind = "decision" then "Decision"
  else if kind = "ask" then "Ask"
  else if kind = "budget" then "Budget"
  else if kind = "subagent_group" then "Subagents"
  else "Policy"

/-! Section: Schema layer (sp_ai_data.ts)

Zod parse semantics as used by the source: `z.object` accepts exactly plain
objects (not `null`, not arrays), unknown keys are accepted (and, with
`z.catchall`, preserved — invisible to the widget logic either way);
`z.optional(S)` lets a key be absent or `undefined`; a present key must match
`S` or the whole parse fails. In Zod 4, `z.number()` accepts only finite
numbers and `z.int()` only safe integers. -/

/-- `z.optional(z.string())` applied to a property value. -/
def zOptStr : JVal → Option (Option String)
  | .undef => some none
  | .str s => some (some s)
  | _ => none

/-- `z.optional(z.boolean())` applied to a property value. -/
def zOptBool : JVal → Option (Option Bool)
  | .undef => some none
  | .bool b => some (some b)
  | _ => none

/-- `z.optional(z.number())` applied to a property value (finite only). -/
def zOptNum : JVal → Option (Option ℚ)
  | .undef => some none
  | .num (.val q) => some (some q)
  | _ => none

/-- `z.optional(z.int().check(z.nonnegative()))` applied to a property value
(a nonnegative safe integer). -/
def zOptNonnegInt : JVal → Option (Option ℕ)
  | .undef => some none
  | .num (.val q) =>
    if q.den = 1 ∧ 0 ≤ q ∧ q ≤ 9007199254740991 then some (some q.num.toNat) else none
  | _ => none

/-- `z.optional(z.array S)` applied to a property value. -/
def zOptArrayOf {α : Type} (f : JVal → Option α) : JVal → Option (Option (List α))
  | .undef => some none
  | .arr xs => (xs.mapM f).map some
  | _ => none

/-- The parse result of `sp_ai_subagent_schema`. -/
structure SpAiSubagent where
  type : Option String
  description : Option String
  status : Option String
  toolCount : Option ℕ
  totalTokens : Option ℕ
  durationMs : Option ℕ
  agentURL : Option String
  model : Option String
  error : Option String
deriving DecidableEq, Repr

/-- `sp_ai_subagent_schema.safeParse`. -/
def parse_sp_ai_subagent (v : JVal) : Option SpAiSubagent :=
  if jIsPlainObj v then do
    let type ← zOptStr (jget v "type")
    let description ← zOptStr (jget v "description")
    let status ← zOptStr (jget v "status")
    let toolCount ← zOptNonnegInt (jget v "toolCount")
    let totalTokens ← zOptNonnegInt (jget v "totalTokens")
    let durationMs ← zOptNonnegInt (jget v "durationMs")
    let agentURL ← zOptStr (jget v "agentURL")
    let model ← zOptStr (jget v "model")
    let error ← zOptStr (jget v "error")
    some ⟨type, description, status, toolCount, totalTokens, durationMs, agentURL, model, error⟩
  else none

/-- The parse result of `sp_ai_subagent_group_block_schema`. -/
structure SpAiSubagentGroupBlock where
  title : Option String
  agents : Option (List SpAiSubagent)
  text : Option String
deriving DecidableEq, Repr

/-- `sp_ai_subagent_group_block_schema.safeParse` (kind must be the literal
"subagent_group"). -/
def parse_sp_ai_subagent_group_block (v : JVal) : Option SpAiSubagentGroupBlock :=
  if jIsPlainObj v then
    match jget v "kind" with
    | .str "subagent_group" => do
      let title ← zOptStr (jget v "title")
      let agents ← zOptArrayOf parse_sp_ai_subagent (jget v "agents")
      let text ← zOptStr (jget v "text")
      some ⟨title, agents, text⟩
    | _ => none
  else none

/-- The parse result of `sp_ai_background_task_schema`. -/
structure SpAiBackgroundTask where
  id : Option String
  description : Option String
  command : Option String
  status : Option String
  runtimeSec : Option ℚ
  outputPreview : Option String
  exitCode : Option ℚ
  error : Option String
deriving DecidableEq, Repr

/-- `sp_ai_background_task_schema.safeParse`. -/
def parse_sp_ai_background_task (v : JVal) : Option SpAiBackgroundTask :=
  if jIsPlainObj v then do
    let id ← zOptStr (jget v "id")
    let description ← zOptStr (jget v "description")
    let command ← zOptStr (jget v "command")
    let status ← zOptStr (jget v "status")
    let runtimeSec ← zOptNum (jget v "runtimeSec")
    let outputPreview ← zOptStr (jget v "outputPreview")
    let exitCode ← zOptNum (jget v "exitCode")
    let error ← zOptStr (jget v "error")
    some ⟨id, description, command, status, runtimeSec, outputPreview, exitCode, error⟩
  else none

/-- The parse result of `sp_ai_background_tasks_block_schema`. -/
structure SpAiBackgroundTasksBlock where
  kind : String
  title : Option String
  tasks : Option (List SpAiBackgroundTask)
deriving DecidableEq, Repr

/-- `sp_ai_background_tasks_block_schema.safeParse` (kind is one of the
literals "background_tasks" and "bash_tasks"). -/
def parse_sp_ai_background_tasks_block (v : JVal) : Option SpAiBackgroundTasksBlock :=
  if jIsPlainObj v then
    match jget v "kind" with
    | .str s =>
      if s = "background_tasks" ∨ s = "bash_tasks" then do
        let title ← zOptStr (jget v "title")
        let tasks ← zOptArrayOf parse_sp_ai_background_task (jget v "tasks")
        some ⟨s, title, tasks⟩
      else none
    | _ => none
  else none

/-- One row of a v2 plan block. Modelled from the spec: see
`SpAiPlanV2Block`. -/
structure SpAiPlanStep where
  step : Option String
  status : Option String
deriving DecidableEq, Repr

/-- Modelled from the spec: `sp_ai_plan_v2_block_schema` is imported from
`sp_ai_data.ts`, but the revision of that module carrying the plan/todo v2
schemas is not in the tree. Per the spec, a v2 structured plan block is a
permissive object with `kind:"plan"`, an optional title and ordered
`steps: {step, status}` rows; `steps` must be present (the legacy
`{kind:"plan", items:[...]}` encoding is handled separately and would be
unreachable if `steps` were optional). -/
structure SpAiPlanV2Block where
  title : Option String
  steps : List SpAiPlanStep
deriving DecidableEq, Repr

/-- Modelled from the spec: the safeParse of `sp_ai_plan_v2_block_schema`
(see `SpAiPlanV2Block`). -/
def parse_sp_ai_plan_v2_block (v : JVal) : Option SpAiPlanV2Block :=
  if jIsPlainObj v then
    match jget v "kind" with
    | .str "plan" => do
      let title ← zOptStr (jget v "title")
      match jget v "steps" with
      | .arr xs =>
        let steps ← xs.mapM (fun x =>
          if jIsPlainObj x then do
            let step ← zOptStr (jget x "step")
            let status ← zOptStr (jget x "status")
            some (⟨step, status⟩ : SpAiPlanStep)
          else none)
        some ⟨title, steps⟩
      | _ => none
    | _ => none
  else none

/-- One row of a v2 todo block. Modelled from the spec: see
`SpAiTodoV2Block`. -/
structure SpAiTodoItem where
  text : Option String
  checked : Option Bool
deriving DecidableEq, Repr

/-- Modelled from the spec: `sp_ai_todo_v2_block_schema` is imported from
`sp_ai_data.ts`, but the revision of that module carrying the plan/todo v2
schemas is not in the tree. Per the spec, a v2 structured todo block is a
permissive object with `kind:"todo"`, an optional title and ordered
`items: {text, checked}` rows; `items` must be present (the legacy
bracket-prefix string encoding is handled separately). -/
structure SpAiTodoV2Block where
  title : Option String
  items : List SpAiTodoItem
deriving DecidableEq, Repr

/-- Modelled from the spec: the safeParse of `sp_ai_todo_v2_block_schema`
(see `SpAiTodoV2Block`). -/
def parse_sp_ai_todo_v2_block (v : JVal) : Option SpAiTodoV2Block :=
  if jIsPlainObj v then
    match jget v "kind" with
    | .str "todo" => do
      let title ← zOptStr (jget v "title")
      match jget v "items" with
      | .arr xs =>
        let items ← xs.mapM (fun x =>
          if jIsPlainObj x then do
            let text ← zOptStr (jget x "text")
            let checked ← zOptBool (jget x "checked")
            some (⟨text, checked⟩ : SpAiTodoItem)
          else none)
        some ⟨title, items⟩
      | _ => none
    | _ => none
  else none

/-- The v2 status enum (sp_ai_data.ts:182 and 240). -/
def sp_ai_status_enum : List String :=
  ["pending", "running", "ok", "error", "aborted", "denied",
   "approval_requested", "approval_responded"]

/-- `SpAiWidgetInboundEvent` (sp_ai_data.ts:233): the discriminated union of
inbound event variants. -/
inductive SpAiWidgetInboundEvent where
  | set_extra_data (extra_data : JVal)
  | set_status (status : String)
  | set_output (output : String)
  | append_output (chunk : String)
deriving Repr

/-- `sp_ai_widget_inbound_event_schema.safeParse`: discriminate on `type`,
then validate the variant's fields (`extra_data` is `z.unknown()`, so it may
be anything including absent). -/
def parse_sp_ai_inbound_event (v : JVal) : Option SpAiWidgetInboundEvent :=
  if jIsPlainObj v then
    match jget v "type" with
    | .str "set_extra_data" => some (.set_extra_data (jget v "extra_data"))
    | .str "set_status" =>
      match jget v "status" with
      | .str s => if s ∈ sp_ai_status_enum then some (.set_status s) else none
      | _ => none
    | .str "set_output" =>
      match jget v "output" with
      | .str o => some (.set_output o)
      | _ => none
    | .str "append_output" =>
      match jget v "chunk" with
      | .str c => some (.append_output c)
      | _ => none
    | _ => none
  else none

/-! Section: Template data built by the specialized extractors (sp_ai_widget.ts) -/

structure SubagentTemplate where
  type : String
  description : String
  status : String
  status_label : String
  meta_line : String
  agentURL : String
  error : String
deriving DecidableEq, Repr

structure SubagentGroupTemplate where
  title : String
  agents : List SubagentTemplate
  fallback_text : String
deriving DecidableEq, Repr

structure BackgroundTaskTemplate where
  task_index : ℕ
  description : String
  command : String
  status : String
  status_label : String
  meta_line : String
  has_output_preview : Bool
  output_preview : String
  error : String
deriving DecidableEq, Repr

structure BackgroundTasksGroupTemplate where
  group_index : ℕ
  title : String
  tasks : List BackgroundTaskTemplate
deriving DecidableEq, Repr

structure PlanStepTemplate where
  step_index : ℕ
  step : String
  status : String
  status_label : String
deriving DecidableEq, Repr

structure PlanGroupTemplate where
  group_index : ℕ
  title : String
  steps : List PlanStepTemplate
deriving DecidableEq, Repr

structure TodoItemTemplate where
  item_index : ℕ
  text : String
  checked : Bool
deriving DecidableEq, Repr

structure TodoGroupTemplate where
  group_index : ℕ
  title : String
  items : List TodoItemTemplate
deriving DecidableEq, Repr

/-- The `blocks` array the extractors scan:
`Array.isArray(extra_data.turn?.blocks) ? extra_data.turn?.blocks : []`. -/
def turn_blocks_of (extra_data : JVal) : List JVal :=
  jAsArray (jOptChain (jget extra_data "turn") "blocks")

/-- The singleton-group section-title rule shared by all four extractors:
one group with a non-blank title names the section, otherwise the fixed
fallback label. -/
def section_title_of (titles : List String) (fallback : String) : String :=
  match titles with
  | [t] => if jsTrim t ≠ "" then t else fallback
  | _ => fallback

/-! Subsection: Subagent groups (normalize_subagent_groups, sp_ai_widget.ts:458) -/

/-- The body of the per-agent map inside `normalize_subagent_groups`. -/
def normalize_one_subagent (agent : SpAiSubagent) : SubagentTemplate :=
  let st := normalize_subagent_status (agent.status.getD "")
  let type := (agent.type.map jsTrim).getD ""
  let meta_parts : List String :=
    (match agent.toolCount with
     | some n => [toString n ++ " tool" ++ (if n = 1 then "" else "s")]
     | none => []) ++
    (match agent.totalTokens with
     | some n => let tok := format_tokens (.val (n : ℚ)); if tok = "" then [] else [tok]
     | none => []) ++
    (match agent.durationMs with
     | some n => let dur := format_duration_ms (.val (n : ℚ)); if dur = "" then [] else [dur]
     | none => []) ++
    (match agent.model with
     | some m => if jsTrim m = "" then [] else [jsTrim m]
     | none => [])
  { type := if type ≠ "" then type else "subagent"
    description := agent.description.getD ""
    status := st.status
    status_label := st.label
    meta_line := String.intercalate " · " meta_parts
    agentURL := agent.agentURL.getD ""
    error := agent.error.getD "" }

/-- The loop body of `normalize_subagent_groups`: what one block contributes.
`none` is the source's `continue` — a failed parse, or the back-compat
suppression of a group with no agents and no fallback text. -/
def subagent_group_step (block : JVal) : Option SubagentGroupTemplate :=
  match parse_sp_ai_subagent_group_block block with
  | none => none
  | some parsed =>
    let agents := parsed.agents.getD []
    let fallback_text := parsed.text.getD ""
    if agents = [] ∧ fallback_text = "" then none
    else some
      { title := parsed.title.getD ""
        agents := agents.map normalize_one_subagent
        fallback_text := fallback_text }

/-- The indexed loop of `normalize_subagent_groups` over the block array,
returning the groups in order and the consumed indices. -/
def subagent_groups_scan : ℕ → List JVal → List SubagentGroupTemplate × List ℕ
  | _, [] => ([], [])
  | i, b :: rest =>
    let tail := subagent_groups_scan (i + 1) rest
    match subagent_group_step b with
    | some g => (g :: tail.1, i :: tail.2)
    | none => tail

structure SubagentGroupsResult where
  turn_kind : JVal
  turn_kind_label : String
  subagent_section_title : String
  subagent_groups : List SubagentGroupTemplate
  skip_block_indexes : List ℕ
deriving Repr

/-- `normalize_subagent_groups` (sp_ai_widget.ts:458). `turn_kind` is the raw
`extra_data.turn?.kind ?? ""` value (untyped at runtime). -/
def normalize_subagent_groups (extra_data : JVal) : SubagentGroupsResult :=
  let turn_kind := jCoalesce (jOptChain (jget extra_data "turn") "kind") (.str "")
  let turn_kind_label :=
    match turn_kind with
    | .str "" => ""
    | k => default_title_for_turn_kind k
  let scan := subagent_groups_scan 0 (turn_blocks_of extra_data)
  { turn_kind := turn_kind
    turn_kind_label := turn_kind_label
    subagent_section_title := section_title_of (scan.1.map (fun g => g.title)) "Subagents"
    subagent_groups := scan.1
    skip_block_indexes := scan.2 }

/-! Subsection: Background tasks (normalize_background_tasks, sp_ai_widget.ts:544) -/

/-- The body of the per-task map inside `normalize_background_tasks`. The
source re-checks each field with `typeof`; those checks are settled by the
schema parse (`exitCode` in particular is finite whenever present). -/
def normalize_one_background_task (task_index : ℕ) (task : SpAiBackgroundTask) :
    BackgroundTaskTemplate :=
  let command := task.command.getD ""
  let description := task.description.getD ""
  let error := task.error.getD ""
  let output_preview := task.outputPreview.getD ""
  let st := normalize_background_task_status (task.status.getD "")
  let meta_parts : List String :=
    (match task.runtimeSec with
     | some q => let rt := format_runtime_sec (.val q); if rt = "" then [] else [rt]
     | none => []) ++
    (match task.exitCode with
     | some q => ["exit " ++ ratDecimalString q]
     | none => [])
  { task_index := task_index
    description := description
    command := command
    status := st.status
    status_label := st.label
    meta_line := String.intercalate " · " meta_parts
    has_output_preview := output_preview != ""
    output_preview := output_preview
    error := error }

/-- The keep-filter on normalized background tasks: drop a task with no
command, description, output preview and error. -/
def background_task_keep (t : BackgroundTaskTemplate) : Bool :=
  t.command != "" || t.description != "" || t.has_output_preview || t.error != ""

/-- The loop body of `normalize_background_tasks`: the title and filtered
tasks one block contributes, `none` being the source's `continue`. -/
def background_tasks_step (block : JVal) : Option (String × List BackgroundTaskTemplate) :=
  match parse_sp_ai_background_tasks_block block with
  | none => none
  | some parsed =>
    let raw_tasks := parsed.tasks.getD []
    if raw_tasks = [] then none
    else
      let tasks :=
        (raw_tasks.enum.map (fun p => normalize_one_background_task p.1 p.2)).filter
          background_task_keep
      if tasks = [] then none
      else some (parsed.title.getD "", tasks)

/-- An indexed scan shared by the group extractors that number their groups:
`i` is the block index, `gi` the next group index (incremented only when a
block contributes). Returns the `(group_index, payload)` list and the
consumed block indices. -/
def indexed_group_scan {α : Type} (step : JVal → Option α) :
    ℕ → ℕ → List JVal → List (ℕ × α) × List ℕ
  | _, _, [] => ([], [])
  | i, gi, b :: rest =>
    match step b with
    | some g =>
      let tail := indexed_group_scan step (i + 1) (gi + 1) rest
      ((gi, g) :: tail.1, i :: tail.2)
    | none => indexed_group_scan step (i + 1) gi rest

structure BackgroundTasksResult where
  background_tasks_section_title : String
  background_task_groups : List BackgroundTasksGroupTemplate
  skip_block_indexes : List ℕ
deriving Repr

/-- `normalize_background_tasks` (sp_ai_widget.ts:544). -/
def normalize_background_tasks (extra_data : JVal) : BackgroundTasksResult :=
  let scan := indexed_group_scan background_tasks_step 0 0 (turn_blocks_of extra_data)
  let background_task_groups := scan.1.map (fun p =>
    ({group_index := p.1, title := p.2.1, tasks := p.2.2} : BackgroundTasksGroupTemplate))
  { background_tasks_section_title :=
      section_title_of (background_task_groups.map (fun g => g.title)) "Background tasks"
    background_task_groups := background_task_groups
    skip_block_indexes := scan.2 }

/-! Subsection: Plan blocks (normalize_plan_blocks, sp_ai_widget.ts:217) -/

/-- The v2 rows mapping inside `normalize_plan_blocks`: trim each step text,
normalize its status, keep the pre-filter row position as `step_index`, and
drop rows whose trimmed step text is empty. -/
def plan_v2_step_rows (raw_steps : List SpAiPlanStep) : List PlanStepTemplate :=
  raw_steps.enum.filterMap (fun p =>
    let step := jsTrim (p.2.step.getD "")
    let st := normalize_plan_step_status (p.2.status.getD "")
    if step = "" then none
    else some ⟨p.1, step, st.status, st.label⟩)

/-- The loop body of `normalize_plan_blocks`: a successful v2 parse never
falls through to the legacy branch (even when it contributes nothing). -/
def plan_block_step (block : JVal) : Option (String × List PlanStepTemplate) :=
  match parse_sp_ai_plan_v2_block block with
  | some parsed =>
    if parsed.steps = [] then none
    else
      let steps := plan_v2_step_rows parsed.steps
      if steps = [] then none
      else some (parsed.title.getD "", steps)
  | none =>
    -- Legacy plan list: {kind:"plan", items:["..."]}
    let recv := if jIsRecordLike block then block else .obj []
    if jToString (jOr (jget recv "kind") (.str "")) ≠ "plan" then none
    else
      let raw_items := jAsArray (jget recv "items")
      let items :=
        (raw_items.map (fun x => match x with | .str s => jsTrim s | _ => "")).filter
          (fun s => s != "")
      if items = [] then none
      else
        let steps := items.enum.map (fun p => (⟨p.1, p.2, "unknown", ""⟩ : PlanStepTemplate))
        some ((match jget recv "title" with | .str s => s | _ => ""), steps)

structure PlanBlocksResult where
  plan_section_title : String
  plan_groups : List PlanGroupTemplate
  skip_block_indexes : List ℕ
deriving Repr

/-- `normalize_plan_blocks` (sp_ai_widget.ts:217). -/
def normalize_plan_blocks (extra_data : JVal) : PlanBlocksResult :=
  let scan := indexed_group_scan plan_block_step 0 0 (turn_blocks_of extra_data)
  let plan_groups := scan.1.map (fun p =>
    ({group_index := p.1, title := p.2.1, steps := p.2.2} : PlanGroupTemplate))
  { plan_section_title := section_title_of (plan_groups.map (fun g => g.title)) "Plan"
    plan_groups := plan_groups
    skip_block_indexes := scan.2 }

/-! Subsection: Todo blocks (normalize_todo_blocks, sp_ai_widget.ts:297) -/

/-- The legacy bracket-prefix todo item: the regex
`^\s*\[( |x|X)\]\s+([\s\S]*)$` applied to the trimmed item, the capture
trimmed again, empty text skipped. -/
def parse_todo_legacy_item (raw : String) : Option (String × Bool) :=
  match (jsTrim raw).data.dropWhile jsWhitespaceChar with
  | '[' :: c :: ']' :: w :: rest =>
    if (c = ' ' || c = 'x' || c = 'X') && jsWhitespaceChar w then
      -- the greedy `\s+` plus the final trim make any further leading
      -- whitespace in `rest` irrelevant
      let text := jsTrim (String.mk rest)
      if text = "" then none else some (text, c = 'x' || c = 'X')
    else none
  | _ => none

/-- The v2 items mapping inside `normalize_todo_blocks`. -/
def todo_v2_items (raw_items : List SpAiTodoItem) : List TodoItemTemplate :=
  raw_items.enum.filterMap (fun p =>
    let text := jsTrim (p.2.text.getD "")
    if text = "" then none
    else some ⟨p.1, text, p.2.checked == some true⟩)

/-- The loop body of `normalize_todo_blocks`; as with plan blocks, a
successful v2 parse never falls through to the legacy branch. -/
def todo_block_step (block : JVal) : Option (String × List TodoItemTemplate) :=
  match parse_sp_ai_todo_v2_block block with
  | some parsed =>
    if parsed.items = [] then none
    else
      let items := todo_v2_items parsed.items
      if items = [] then none
      else some (parsed.title.getD "", items)
  | none =>
    -- Legacy todo list: {kind:"todo", items:["[x] ...", "[ ] ..."]}
    let recv := if jIsRecordLike block then block else .obj []
    if jToString (jOr (jget recv "kind") (.str "")) ≠ "todo" then none
    else
      let raw_items := jAsArray (jget recv "items")
      let items := raw_items.enum.filterMap (fun p =>
        match p.2 with
        | .str raw => (parse_todo_legacy_item raw).map (fun r =>
            (⟨p.1, r.1, r.2⟩ : TodoItemTemplate))
        | _ => none)
      if items = [] then none
      else some ((match jget recv "title" with | .str s => s | _ => ""), items)

structure TodoBlocksResult where
  todo_section_title : String
  todo_groups : List TodoGroupTemplate
  skip_block_indexes : List ℕ
deriving Repr

/-- `normalize_todo_blocks` (sp_ai_widget.ts:297). -/
def normalize_todo_blocks (extra_data : JVal) : TodoBlocksResult :=
  let scan := indexed_group_scan todo_block_step 0 0 (turn_blocks_of extra_data)
  let todo_groups := scan.1.map (fun p =>
    ({group_index := p.1, title := p.2.1, items := p.2.2} : TodoGroupTemplate))
  { todo_section_title := section_title_of (todo_groups.map (fun g => g.title)) "Todo"
    todo_groups := todo_groups
    skip_block_indexes := scan.2 }

/-! Section: The generic flat block list (normalize_turn_blocks, sp_ai_widget.ts:773)

A JS string-typed slot can end up holding `undefined` when it is filled from
`stringify_unknown(undefined)`; such slots are `Option String` here
(`none` = `undefined`), which is exactly what the widget-state schema later
rejects. -/

/-- One entry of the flat renderable block list. -/
structure NormalizedBlock where
  index : ℕ
  kind : String
  label : String
  title : String
  text : Option String
  language : String
  channel : String
  columns : List (Option String)
  rows : List (List (Option String))
  has_columns : Bool
  copy_text : Option String
  is_table : Bool
  is_stream : Bool
  is_unknown : Bool
  is_context_usage : Bool
  has_context_usage_percent : Bool
  context_usage_percent : ℚ
  has_list_items : Bool
  list_items : List (Option String)
  is_file_tree : Bool
deriving DecidableEq, Repr

/-- The `data` argument of the source's `push_generic_block` closure (here all
fields are supplied; the closure's own `?? default` fills play the same
role). -/
structure GenericBlockData where
  text : Option String
  language : String
  channel : String
  is_unknown : Bool
  list_items : List (Option String)
  has_context_usage_percent : Bool
  context_usage_percent : ℚ
deriving Repr

/-- `push_generic_block` (sp_ai_widget.ts:796). -/
def push_generic_block (index : ℕ) (kind title : String) (d : GenericBlockData) :
    NormalizedBlock :=
  { index := index
    kind := kind
    label := block_label kind d.channel
    title := title
    text := d.text
    language := d.language
    channel := d.channel
    columns := []
    rows := []
    has_columns := false
    copy_text := d.text
    is_table := false
    is_stream := kind == "stream" && d.channel != ""
    is_unknown := d.is_unknown
    is_context_usage := kind == "context_usage"
    has_context_usage_percent := d.has_context_usage_percent
    context_usage_percent := d.context_usage_percent
    has_list_items := d.list_items.length != 0
    list_items := d.list_items
    is_file_tree := kind == "file_tree" }

/-- `typeof v === "string" ? v : stringify_unknown(v)`. -/
def str_or_stringify : JVal → Option String
  | .str s => some s
  | v => stringify_unknown v

/-- An optional string back as a JS value (for the fresh `{columns, rows}`
object the table branch stringifies). -/
def optStrVal : Option String → JVal
  | some s => .str s
  | none => (.undef)

/-- The table branch of the per-block body (sp_ai_widget.ts:835-870). -/
def normalize_table_block (index : ℕ) (kind title : String) (raw : JVal) : NormalizedBlock :=
  let columns := (jAsArray (jget raw "columns")).map str_or_stringify
  let rows := (jAsArray (jget raw "rows")).map (fun row =>
    match row with
    | .arr cells => cells.map str_or_stringify
    | r => [stringify_unknown r])
  { index := index
    kind := kind
    label := block_label kind ""
    title := title
    text := some ""
    language := ""
    channel := ""
    columns := columns
    rows := rows
    has_columns := columns.length != 0
    copy_text := stringify_unknown (.obj
      [("columns", .arr (columns.map optStrVal)),
       ("rows", .arr (rows.map (fun r => .arr (r.map optStrVal))))])
    is_table := true
    is_stream := false
    is_unknown := false
    is_context_usage := false
    has_context_usage_percent := false
    context_usage_percent := 0
    has_list_items := false
    list_items := []
    is_file_tree := false }

/-- The generic-branch field computation of the per-block body: exactly the
`data` the source hands to its `push_generic_block` closure for every
non-table kind (sp_ai_widget.ts:877-984). -/
def normalize_generic_block_data (raw : JVal) (kind channel : String) : GenericBlockData :=
  if kind = "markdown" ∨ kind = "text" ∨ (kind = "stream" ∧ channel ≠ "") then
    { text := str_or_stringify (jget raw "text")
      language := "", channel := channel, is_unknown := false, list_items := []
      has_context_usage_percent := false, context_usage_percent := 0 }
  else if kind = "code" then
    let text0 := str_or_stringify (jget raw "code")
    let language := match jget raw "language" with | .str s => s | _ => ""
    -- `try_pretty_json(text)` coerces a missing text to "" via `text || ""`
    let text :=
      if language = "json" then
        match try_pretty_json (text0.getD "") with
        | some pretty => some pretty
        | none => text0
      else text0
    { text := text, language := language, channel := channel
      is_unknown := false, list_items := []
      has_context_usage_percent := false, context_usage_percent := 0 }
  else if kind = "diff" then
    { text := str_or_stringify (jget raw "diff")
      language := (match jget raw "language" with | .str s => s | _ => "diff")
      channel := channel, is_unknown := false, list_items := []
      has_context_usage_percent := false, context_usage_percent := 0 }
  else if kind = "json" then
    let text :=
      match jget raw "text" with
      | .str s =>
        (match try_pretty_json s with
         | some pretty => some pretty
         | none => some s)
      | _ =>
        if jHasOwn raw "json" then stringify_unknown (jget raw "json")
        else stringify_unknown raw
    { text := text, language := "json", channel := channel
      is_unknown := false, list_items := []
      has_context_usage_percent := false, context_usage_percent := 0 }
  else if kind = "context_usage" then
    let used := jget raw "used"
    let limit := jget raw "limit"
    let unit := match jget raw "unit" with | .str s => s | _ => "tokens"
    let breakdown := jAsArray (jget raw "breakdown")
    let list_items := breakdown.map stringify_unknown
    match used, limit with
    | .num (.val u), .num (.val l) =>
      if 0 < l then
        { text := some (ratDecimalString u ++ "/" ++ ratDecimalString l ++ " " ++ unit)
          language := "", channel := channel, is_unknown := false
          list_items := list_items
          has_context_usage_percent := true
          context_usage_percent := max 0 (min 100 (u / l * 100)) }
      else
        { text := (match jget raw "text" with | .str s => some s | _ => stringify_unknown raw)
          language := "", channel := channel, is_unknown := false
          list_items := list_items
          has_context_usage_percent := false, context_usage_percent := 0 }
    | _, _ =>
      { text := (match jget raw "text" with | .str s => some s | _ => stringify_unknown raw)
        language := "", channel := channel, is_unknown := false
        list_items := list_items
        has_context_usage_percent := false, context_usage_percent := 0 }
  else if kind = "file_tree" then
    match jget raw "entries" with
    | .arr entries =>
      let list_items := entries.map stringify_unknown
      { text := some (String.intercalate "\n" (list_items.map (fun o => o.getD "")))
        language := "", channel := channel, is_unknown := false
        list_items := list_items
        has_context_usage_percent := false, context_usage_percent := 0 }
    | _ =>
      match jget raw "tree" with
      | .str t =>
        { text := some t, language := "", channel := channel, is_unknown := false
          list_items := [], has_context_usage_percent := false, context_usage_percent := 0 }
      | _ =>
        { text := stringify_unknown (jCoalesce (jget raw "entries")
            (jCoalesce (jget raw "tree") raw))
          language := "", channel := channel, is_unknown := false
          list_items := [], has_context_usage_percent := false, context_usage_percent := 0 }
  else if kind = "memory_blocks" then
    match jget raw "blocks" with
    | .arr bl =>
      let list_items := bl.map (fun item =>
        if jIsRecordLike item then
          let label := match jget item "label" with | .str s => s | _ => "(block)"
          let chars := match jget item "chars" with
            | .num n => " (" ++ jnumToString n ++ " chars)"
            | _ => ""
          some (label ++ chars)
        else stringify_unknown item)
      { text := some (String.intercalate "\n" (list_items.map (fun o => o.getD "")))
        language := "", channel := channel, is_unknown := false
        list_items := list_items
        has_context_usage_percent := false, context_usage_percent := 0 }
    | _ =>
      match jget raw "text" with
      | .str s =>
        { text := some s, language := "", channel := channel, is_unknown := false
          list_items := [], has_context_usage_percent := false, context_usage_percent := 0 }
      | _ =>
        { text := stringify_unknown (jCoalesce (jget raw "blocks") raw)
          language := "", channel := channel, is_unknown := false
          list_items := [], has_context_usage_percent := false, context_usage_percent := 0 }
  else if kind = "subagent_group" ∨ kind = "queue" ∨ kind = "plan" ∨ kind = "todo" then
    let raw_items :=
      match jget raw "items" with
      | .arr xs => some xs
      | _ => match jget raw "rows" with | .arr xs => some xs | _ => none
    match raw_items with
    | some xs =>
      let list_items := xs.map stringify_unknown
      { text := some (String.intercalate "\n" (list_items.map (fun o => o.getD "")))
        language := "", channel := channel, is_unknown := false
        list_items := list_items
        has_context_usage_percent := false, context_usage_percent := 0 }
    | none =>
      match jget raw "text" with
      | .str s =>
        { text := some s, language := "", channel := channel, is_unknown := false
          list_items := [], has_context_usage_percent := false, context_usage_percent := 0 }
      | _ =>
        { text := stringify_unknown raw
          language := "", channel := channel, is_unknown := false
          list_items := [], has_context_usage_percent := false, context_usage_percent := 0 }
  else
    { text := stringify_unknown raw
      language := "", channel := channel, is_unknown := true
      list_items := [], has_context_usage_percent := false, context_usage_percent := 0 }

/-- The per-block body of `normalize_turn_blocks` once a block passed the
skip-set and object checks: the table branch pushes its table entry, every
other kind pushes one generic entry (every path pushes exactly one block). -/
def normalize_one_block (index : ℕ) (raw : JVal) : NormalizedBlock :=
  let kind := match jget raw "kind" with | .str s => s | _ => "unknown"
  let title := match jget raw "title" with | .str s => s | _ => ""
  if kind = "table" then normalize_table_block index kind title raw
  else
    let channel :=
      if kind = "stream" then
        match jget raw "channel" with
        | .str "stdout" => "stdout"
        | .str "stderr" => "stderr"
        | _ => ""
      else ""
    push_generic_block index kind title (normalize_generic_block_data raw kind channel)


/-- The indexed loop of `normalize_turn_blocks`: an index in the skip set or a
non-object entry is passed over, every other entry contributes exactly one
block carrying its original index. -/
def normalize_turn_blocks_go (skip_block_indexes : List ℕ) :
    ℕ → List JVal → List NormalizedBlock
  | _, [] => []
  | index, raw :: rest =>
    if skip_block_indexes.contains index then
      normalize_turn_blocks_go skip_block_indexes (index + 1) rest
    else if !(jTruthy raw && jIsRecordLike raw) then
      normalize_turn_blocks_go skip_block_indexes (index + 1) rest
    else
      normalize_one_block index raw :: normalize_turn_blocks_go skip_block_indexes (index + 1) rest

/-- `normalize_turn_blocks` (sp_ai_widget.ts:773). -/
def normalize_turn_blocks (raw_blocks : JVal) (skip_block_indexes : List ℕ) :
    List NormalizedBlock :=
  match raw_blocks with
  | .arr xs => normalize_turn_blocks_go skip_block_indexes 0 xs
  | _ => []

/-! Section: Widget state (normalize_extra_data, sp_ai_widget.ts:990) -/

def JNum.addOne : JNum → JNum
  | .nan => .nan
  | .inf => .inf
  | .ninf => .ninf
  | .val q => .val (q + 1)

def JNum.subOne : JNum → JNum
  | .nan => .nan
  | .inf => .inf
  | .ninf => .ninf
  | .val q => .val (q - 1)

/-- `Math.max(1, n)`. -/
def jnumMaxOne : JNum → JNum
  | .nan => .nan
  | .inf => .inf
  | .ninf => .val 1
  | .val q => .val (max 1 q)

/-- `n > 0` in JS (false on NaN). -/
def JNum.gtZero : JNum → Bool
  | .val q => 0 < q
  | .inf => true
  | _ => false

/-- `a < b` in JS (false whenever either side is NaN). -/
def JNum.ltJ : JNum → JNum → Bool
  | .nan, _ => false
  | _, .nan => false
  | .inf, _ => false
  | .ninf, .ninf => false
  | .ninf, _ => true
  | .val _, .inf => true
  | .val _, .ninf => false
  | .val a, .val b => a < b

/-- The `parallel` slot of the candidate state (sp_ai_widget.ts:1070). -/
structure ParallelTemplate where
  groupId : String
  index : JNum
  count : JNum
  hasPrev : Bool
  hasNext : Bool
deriving DecidableEq, Repr

/-- The IIFE computing the candidate's `parallel` field. -/
def normalize_parallel (turnv : JVal) : Option ParallelTemplate :=
  let p := jOptChain turnv "parallel"
  if !(jTruthy p && jIsRecordLike p) then none
  else
    let groupId := match jget p "groupId" with | .str s => s | _ => ""
    let index : JNum := match jget p "index" with | .num n => n | _ => .val 0
    let count : JNum := match jget p "count" with | .num n => n | _ => jnumMaxOne index.addOne
    let hasPrev := match jget p "hasPrev" with | .bool b => b | _ => index.gtZero
    let hasNext := match jget p "hasNext" with | .bool b => b | _ => index.ltJ count.subOne
    if groupId = "" then none
    else some ⟨groupId, index, count, hasPrev, hasNext⟩

/-- The `kind` enum of `widget_state_schema` (also the literal chain coercing
`kindRaw`). -/
def sp_ai_kind_enum : List String :=
  ["thinking", "tool", "final", "error", "plan", "decision", "ask", "budget",
   "policy", "subagent_group"]

/-- The union of the four extractors' consumed-index sets
(sp_ai_widget.ts:1025); a list with the same membership. -/
def sp_ai_skip_block_indexes (extra_data : JVal) : List ℕ :=
  (normalize_subagent_groups extra_data).skip_block_indexes ++
  (normalize_background_tasks extra_data).skip_block_indexes ++
  (normalize_plan_blocks extra_data).skip_block_indexes ++
  (normalize_todo_blocks extra_data).skip_block_indexes

/-- The argument object `normalize_extra_data` hands to
`widget_state_schema.safeParse`: recognized slots hold whatever the defaulting
chains produced (still untyped where the chain can leak a non-string), while
`kind`/`status` have already been coerced into their enums. -/
structure WidgetStateCandidate where
  version : JVal
  display : JVal
  kind : String
  title : JVal
  caption : JVal
  status : String
  tool : JVal
  input : JVal
  output : JVal
  blocks : List NormalizedBlock
  parallel : Option ParallelTemplate
deriving Repr

/-- The candidate construction in `normalize_extra_data`
(sp_ai_widget.ts:990-1083). -/
def widget_state_candidate (extra_data : JVal) : WidgetStateCandidate :=
  let ed := jOr extra_data (.obj [])
  let turnv :=
    if jTruthy (jget ed "turn") && jIsRecordLike (jget ed "turn") then jget ed "turn"
    else .null
  let kindRaw := jToString (jOr (jOptChain turnv "kind") (.str ""))
  let statusRaw :=
    jToString (jOr (jOptChain turnv "status") (jOr (jget ed "status") (.str "running")))
  { version := jCoalesce (jget ed "version") (.num (.val 2))
    display := jCoalesce (jget ed "display") (.str "card_only")
    kind := if kindRaw ∈ sp_ai_kind_enum then kindRaw else "final"
    title := jCoalesce (jOptChain turnv "title") (jCoalesce (jget ed "title") (.str "Agent output"))
    caption := jCoalesce (jOptChain turnv "subtitle") (jCoalesce (jget ed "caption") (.str ""))
    status := if statusRaw ∈ sp_ai_status_enum then statusRaw else "running"
    tool := jCoalesce (jOptChain (jOptChain turnv "tool") "name")
      (jCoalesce (jget ed "tool") (.str ""))
    input := jCoalesce (jOptChain (jOptChain turnv "tool") "argsText")
      (jCoalesce (jget ed "input") (.str ""))
    output := jCoalesce (jOptChain turnv "output") (jCoalesce (jget ed "output") (.str ""))
    blocks := normalize_turn_blocks (jOptChain turnv "blocks") (sp_ai_skip_block_indexes extra_data)
    parallel := normalize_parallel turnv }

/-- The typed result of a successful `widget_state_schema.safeParse`. -/
structure WidgetBaseState where
  version : ℤ
  display : String
  kind : String
  title : String
  caption : String
  status : String
  tool : String
  input : String
  output : String
  blocks : List NormalizedBlock
  parallel : Option ParallelTemplate
deriving DecidableEq, Repr

/-- `z.int().check(z.nonnegative())` on a candidate slot. -/
def z_nonneg_int : JVal → Option ℤ
  | .num (.val q) =>
    if q.den = 1 ∧ 0 ≤ q ∧ q ≤ 9007199254740991 then some q.num else none
  | _ => none

/-- `z.string()` on a candidate slot. -/
def z_string : JVal → Option String
  | .str s => some s
  | _ => none

/-- The per-block checks of `widget_state_schema`'s `blocks` element schema.
Every other field is well-typed by construction; the possibly-`undefined`
string slots are what `z.string()` / `z.array(z.string())` can reject. -/
def normalized_block_schema_ok (b : NormalizedBlock) : Bool :=
  b.text.isSome && b.copy_text.isSome &&
  b.columns.all (fun o => o.isSome) &&
  b.rows.all (fun r => r.all (fun o => o.isSome)) &&
  b.list_items.all (fun o => o.isSome)

/-- The `parallel` slot checks: `z.number()` (finite-only in Zod 4) on
`index` and `count`; the rest is well-typed by construction. -/
def parallel_schema_ok : Option ParallelTemplate → Bool
  | none => true
  | some p => p.index.isFinite && p.count.isFinite

/-- `widget_state_schema.safeParse` on the candidate
(sp_ai_widget.ts:38-92). -/
def widget_state_parse (c : WidgetStateCandidate) : Option WidgetBaseState := do
  let version ← z_nonneg_int c.version
  let display0 ← z_string c.display
  let display ← if display0 = "card_only" ∨ display0 = "card_with_caption"
    then some display0 else none
  let _ ← if c.kind ∈ sp_ai_kind_enum then some () else none
  let title ← z_string c.title
  let caption ← z_string c.caption
  let _ ← if c.status ∈ sp_ai_status_enum then some () else none
  let tool ← z_string c.tool
  let input ← z_string c.input
  let output ← z_string c.output
  let _ ← if c.blocks.all normalized_block_schema_ok then some () else none
  let _ ← if parallel_schema_ok c.parallel then some () else none
  some ⟨version, display, c.kind, title, caption, c.status, tool, input, output,
    c.blocks, c.parallel⟩

/-- The full widget state: the schema-validated base plus the extractor-derived
presentation fields (sp_ai_widget.ts:161-176). -/
structure WidgetState where
  version : ℤ
  display : String
  kind : String
  title : String
  caption : String
  status : String
  tool : String
  input : String
  output : String
  blocks : List NormalizedBlock
  parallel : Option ParallelTemplate
  turn_kind : JVal
  turn_kind_label : String
  has_subagent_groups : Bool
  subagent_section_title : String
  subagent_groups : List SubagentGroupTemplate
  has_background_tasks : Bool
  background_tasks_section_title : String
  background_task_groups : List BackgroundTasksGroupTemplate
  has_plan_blocks : Bool
  plan_section_title : String
  plan_groups : List PlanGroupTemplate
  has_todo_blocks : Bool
  todo_section_title : String
  todo_groups : List TodoGroupTemplate
deriving Repr

/-- `normalize_extra_data` (sp_ai_widget.ts:990), paired with whether the
failure branch ran (the source's `blueslip.warn("sp_ai widget: invalid
extra_data", ...)`) — on failure the base fields take the safe defaults while
the extractor-derived fields are kept. -/
def normalize_extra_data_core (extra_data : JVal) : WidgetState × Bool :=
  let sg := normalize_subagent_groups extra_data
  let bg := normalize_background_tasks extra_data
  let pl := normalize_plan_blocks extra_data
  let td := normalize_todo_blocks extra_data
  let assemble : WidgetBaseState → WidgetState := fun base =>
    { version := base.version, display := base.display, kind := base.kind
      title := base.title, caption := base.caption, status := base.status
      tool := base.tool, input := base.input, output := base.output
      blocks := base.blocks, parallel := base.parallel
      turn_kind := sg.turn_kind, turn_kind_label := sg.turn_kind_label
      has_subagent_groups := decide (0 < sg.subagent_groups.length)
      subagent_section_title := sg.subagent_section_title
      subagent_groups := sg.subagent_groups
      has_background_tasks := decide (0 < bg.background_task_groups.length)
      background_tasks_section_title := bg.background_tasks_section_title
      background_task_groups := bg.background_task_groups
      has_plan_blocks := decide (0 < pl.plan_groups.length)
      plan_section_title := pl.plan_section_title
      plan_groups := pl.plan_groups
      has_todo_blocks := decide (0 < td.todo_groups.length)
      todo_section_title := td.todo_section_title
      todo_groups := td.todo_groups }
  match widget_state_parse (widget_state_candidate extra_data) with
  | some base => (assemble base, false)
  | none =>
    (assemble
      { version := 2, display := "card_only", kind := "final", title := "Agent output"
        caption := "", status := "running", tool := "", input := "", output := ""
        blocks := [], parallel := none }, true)

/-- The state `normalize_extra_data` returns. -/
def normalize_extra_data (extra_data : JVal) : WidgetState :=
  (normalize_extra_data_core extra_data).1

/-- Whether `normalize_extra_data` logs the invalid-extra_data warning. -/
def normalize_extra_data_warns (extra_data : JVal) : Bool :=
  (normalize_extra_data_core extra_data).2

/-! Section: State reducer and activation (sp_ai_widget.ts:1176-1382) -/

/-- `apply_inbound_event` (sp_ai_widget.ts:1338): the pure reducer. -/
def apply_inbound_event (state : WidgetState) : SpAiWidgetInboundEvent → WidgetState
  | .set_extra_data extra => normalize_extra_data extra
  | .set_status s => { state with status := s }
  | .set_output o => { state with output := o }
  | .append_output chunk =>
    { state with output := if state.output = "" then chunk else state.output ++ chunk }

/-- `handle_events` (sp_ai_widget.ts:1365): fold the event stream, silently
discarding events the schema rejects (the re-render after the loop is
presentation only). Each event is modelled by its `event.data` value. -/
def handle_events (state : WidgetState) (events : List JVal) : WidgetState :=
  events.foldl (fun st e =>
    match parse_sp_ai_inbound_event e with
    | none => st
    | some evt => apply_inbound_event st evt) state

/-- What `activate` (sp_ai_widget.ts:1176) returns, behaviorally: either the
no-op event handler of the `extra_data === null` bail-out, or a live widget
with its initial state. -/
inductive SpAiActivation where
  | noop
  | widget (state : WidgetState)

/-- `activate`, paired with whether `blueslip.error("sp_ai widget: invalid
extra_data")` was logged. -/
def activate (extra_data : JVal) : SpAiActivation × Bool :=
  match extra_data with
  | .null => (.noop, true)
  | ed => (.widget (normalize_extra_data ed), false)

/-- Delivering an event list to the handler `activate` returned. -/
def activation_handle_events : SpAiActivation → List JVal → SpAiActivation
  | .noop, _ => .noop
  | .widget s, events => .widget (handle_events s events)

/-- The documented safe default state: what normalizing a payload with no
recognized fields yields (kind=final, status=running, all groups empty, all
has_X flags false). -/
def sp_ai_default_state : WidgetState :=
  { version := 2, display := "card_only", kind := "final", title := "Agent output"
    caption := "", status := "running", tool := "", input := "", output := ""
    blocks := [], parallel := none
    turn_kind := .str "", turn_kind_label := ""
    has_subagent_groups := false, subagent_section_title := "Subagents"
    subagent_groups := []
    has_background_tasks := false, background_tasks_section_title := "Background tasks"
    background_task_groups := []
    has_plan_blocks := false, plan_section_title := "Plan", plan_groups := []
    has_todo_blocks := false, todo_section_title := "Todo", todo_groups := [] }

/-- The group numbering the indexed extractors produce: consecutive
`group_index` values starting at `gi` over the contributed groups. -/
def group_label {α : Type} : ℕ → List α → List (ℕ × α)
  | _, [] => []
  | gi, x :: xs => (gi, x) :: group_label (gi + 1) xs

/-! Theorems. -/

/-- C5: `format_duration_ms` boundary behaviour — 999 → "999ms", 1000 →
"1.0s", 9999 → "10.0s", 10000 → "10s", and 60000 (where "60.0s" would be out
of range) falls into the minutes branch as "1m 0s"; generally, below 1000ms it
renders rounded milliseconds, from 1s below 60s it renders seconds with one
decimal below 10s and integer seconds otherwise, and from 60000ms on it
renders "<m>m <s>s". -/
theorem format_duration_ms_boundaries :
    (format_duration_ms (.val 999) = "999ms"
      ∧ format_duration_ms (.val 1000) = "1.0s"
      ∧ format_duration_ms (.val 9999) = "10.0s"
      ∧ format_duration_ms (.val 10000) = "10s"
      ∧ format_duration_ms (.val 60000) = "1m 0s")
    ∧ (∀ q : ℚ, 0 ≤ q → q < 1000 →
        format_duration_ms (.val q) = toString (jsRound q) ++ "ms")
    ∧ (∀ q : ℚ, 1000 ≤ q → q < 60000 →
        format_duration_ms (.val q)
          = (if q / 1000 < 10 then jsToFixed1 (q / 1000) else jsToFixed0 (q / 1000)) ++ "s")
    ∧ (∀ q : ℚ, 60000 ≤ q →
        format_duration_ms (.val q)
          = toString (⌊q / 1000 / 60⌋ : ℤ) ++ "m "
            ++ toString (jsRound (jsMod (q / 1000) 60)) ++ "s") := by
  refine ⟨⟨by norm_num [format_duration_ms, jsRound]; rfl,
    by norm_num [format_duration_ms, jsToFixed1]; rfl,
    by norm_num [format_duration_ms, jsToFixed1]; rfl,
    by norm_num [format_duration_ms, jsToFixed0]; rfl,
    by norm_num [format_duration_ms, jsRound, jsMod, jsTrunc]; rfl⟩, ?_, ?_, ?_⟩
  · intro q h0 h1
    have hq0 : ¬ q < 0 := by linarith
    simp only [format_duration_ms, if_neg hq0, if_pos h1]
  · intro q h1 h2
    have hq0 : ¬ q < 0 := by linarith
    have hq1 : ¬ q < 1000 := by linarith
    have hsec : q / 1000 < 60 := by
      rw [div_lt_iff₀ (by norm_num : (0:ℚ) < 1000)]; linarith
    simp only [format_duration_ms, if_neg hq0, if_neg hq1, if_pos hsec]
  · intro q h1
    have hq0 : ¬ q < 0 := by linarith
    have hq1 : ¬ q < 1000 := by linarith
    have hsec : ¬ q / 1000 < 60 := by
      rw [not_lt, le_div_iff₀ (by norm_num : (0:ℚ) < 1000)]; linarith
    simp only [format_duration_ms, if_neg hq0, if_neg hq1, if_neg hsec]

/-- Witness for C5's conditional parts at 500ms, 5000ms and 120000ms. -/
theorem format_duration_ms_boundaries_witness :
    ((0:ℚ) ≤ 500 ∧ format_duration_ms (.val 500) = toString (jsRound 500) ++ "ms")
    ∧ ((1000:ℚ) ≤ 5000
      ∧ format_duration_ms (.val 5000)
          = (if (5000:ℚ) / 1000 < 10 then jsToFixed1 (5000 / 1000) else jsToFixed0 (5000 / 1000)) ++ "s")
    ∧ ((60000:ℚ) ≤ 120000
      ∧ format_duration_ms (.val 120000)
          = toString (⌊(120000:ℚ) / 1000 / 60⌋ : ℤ) ++ "m "
            ++ toString (jsRound (jsMod ((120000:ℚ) / 1000) 60)) ++ "s") :=
  ⟨⟨by norm_num, format_duration_ms_boundaries.2.1 500 (by norm_num) (by norm_num)⟩,
   ⟨by norm_num, format_duration_ms_boundaries.2.2.1 5000 (by norm_num) (by norm_num)⟩,
   ⟨by norm_num, format_duration_ms_boundaries.2.2.2 120000 (by norm_num)⟩⟩

/-- C10: each numeric formatter returns the empty string on every negative or
non-finite input rather than rendering a negative, NaN or Infinity
quantity. -/
theorem sp_ai_formatters_reject_bad_numbers (n : JNum)
    (h : n.isFinite = false ∨ n.ltZero = true) :
    format_duration_ms n = "" ∧ format_tokens n = "" ∧ format_runtime_sec n = "" := by
  cases n with
  | nan => exact ⟨rfl, rfl, rfl⟩
  | inf => exact ⟨rfl, rfl, rfl⟩
  | ninf => exact ⟨rfl, rfl, rfl⟩
  | val q =>
    rcases h with h | h
    · exact absurd h (by simp [JNum.isFinite])
    · have hq : q < 0 := by simpa [JNum.ltZero, decide_eq_true_eq] using h
      refine ⟨?_, ?_, ?_⟩ <;>
        simp [format_duration_ms, format_tokens, format_runtime_sec, if_pos hq]

/-- Witness for C10 at NaN and at -5. -/
theorem sp_ai_formatters_reject_bad_numbers_witness :
    ((JNum.nan.isFinite = false ∨ JNum.nan.ltZero = true)
      ∧ format_duration_ms .nan = "" ∧ format_tokens .nan = ""
      ∧ format_runtime_sec .nan = "")
    ∧ (((JNum.val (-5)).isFinite = false ∨ (JNum.val (-5)).ltZero = true)
      ∧ format_duration_ms (.val (-5)) = "" ∧ format_tokens (.val (-5)) = ""
      ∧ format_runtime_sec (.val (-5)) = "") :=
  ⟨⟨Or.inl rfl, sp_ai_formatters_reject_bad_numbers .nan (Or.inl rfl)⟩,
   ⟨Or.inr (by decide), sp_ai_formatters_reject_bad_numbers (.val (-5)) (Or.inr (by decide))⟩⟩

/-- C6: status normalization is total and case-insensitive — any string whose
lowercased trim is an ok/error/running synonym folds accordingly in both
`normalize_subagent_status` and `normalize_background_task_status`, and any
string outside the respective function's known synonym sets maps to
"unknown" with the trimmed original as label ("Unknown" when that is
empty). -/
theorem sp_ai_status_synonym_folding (s : String) :
    (jsToLowerCase (jsTrim s) ∈ ["ok", "success", "completed", "complete"] →
      normalize_subagent_status s = ⟨"ok", "OK"⟩
        ∧ normalize_background_task_status s = ⟨"ok", "OK"⟩)
    ∧ (jsToLowerCase (jsTrim s) ∈ ["error", "failed", "failure"] →
      normalize_subagent_status s = ⟨"error", "Error"⟩
        ∧ normalize_background_task_status s = ⟨"error", "Error"⟩)
    ∧ (jsToLowerCase (jsTrim s) ∈ ["running", "in_progress", "in-progress", "started"] →
      normalize_subagent_status s = ⟨"running", "Running"⟩
        ∧ normalize_background_task_status s = ⟨"running", "Running"⟩)
    ∧ (jsToLowerCase (jsTrim s) ∉
        ["ok", "success", "completed", "complete"]
          ++ ["error", "failed", "failure"]
          ++ ["running", "in_progress", "in-progress", "started"] →
      normalize_subagent_status s
        = ⟨"unknown", if jsTrim s = "" then "Unknown" else jsTrim s⟩)
    ∧ (jsToLowerCase (jsTrim s) ∉
        ["ok", "success", "completed", "complete"]
          ++ ["error", "failed", "failure"]
          ++ ["running", "in_progress", "in-progress", "started"]
          ++ ["pending", "queued", "queue"]
          ++ ["aborted", "canceled", "cancelled"] →
      normalize_background_task_status s
        = ⟨"unknown", if jsTrim s = "" then "Unknown" else jsTrim s⟩) := by
  refine ⟨?_, ?_, ?_, ?_, ?_⟩ <;> intro h
  · constructor <;>
      simp only [normalize_subagent_status, normalize_background_task_status, if_pos h]
  · have h1 : jsToLowerCase (jsTrim s) ∉ ["ok", "success", "completed", "complete"] :=
      (by decide : ∀ t ∈ ["error", "failed", "failure"],
        t ∉ ["ok", "success", "completed", "complete"]) _ h
    constructor <;>
      simp only [normalize_subagent_status, normalize_background_task_status,
        if_neg h1, if_pos h]
  · have h1 : jsToLowerCase (jsTrim s) ∉ ["ok", "success", "completed", "complete"] :=
      (by decide : ∀ t ∈ ["running", "in_progress", "in-progress", "started"],
        t ∉ ["ok", "success", "completed", "complete"]) _ h
    have h2 : jsToLowerCase (jsTrim s) ∉ ["error", "failed", "failure"] :=
      (by decide : ∀ t ∈ ["running", "in_progress", "in-progress", "started"],
        t ∉ ["error", "failed", "failure"]) _ h
    constructor <;>
      simp only [normalize_subagent_status, normalize_background_task_status,
        if_neg h1, if_neg h2, if_pos h]
  · simp only [List.append_assoc, List.mem_append, not_or] at h
    obtain ⟨h1, h2, h3⟩ := h
    simp only [normalize_subagent_status, if_neg h1, if_neg h2, if_neg h3]
  · simp only [List.append_assoc, List.mem_append, not_or] at h
    obtain ⟨h1, h2, h3, h4, h5⟩ := h
    simp only [normalize_background_task_status, if_neg h1, if_neg h2, if_neg h3,
      if_neg h4, if_neg h5]

/-- Witness for C6 at "  OK ", "Failed", "in-progress", and "bogus". -/
theorem sp_ai_status_synonym_folding_witness :
    (normalize_subagent_status "  OK " = ⟨"ok", "OK"⟩
      ∧ normalize_background_task_status "  OK " = ⟨"ok", "OK"⟩)
    ∧ normalize_subagent_status "Failed" = ⟨"error", "Error"⟩
    ∧ normalize_background_task_status "In-Progress" = ⟨"running", "Running"⟩
    ∧ normalize_subagent_status "bogus" = ⟨"unknown", "bogus"⟩
    ∧ normalize_background_task_status "bogus" = ⟨"unknown", "bogus"⟩ := by
  refine ⟨(sp_ai_status_synonym_folding "  OK ").1 (by decide),
    ((sp_ai_status_synonym_folding "Failed").2.1 (by decide)).1,
    ((sp_ai_status_synonym_folding "In-Progress").2.2.1 (by decide)).2,
    ((sp_ai_status_synonym_folding "bogus").2.2.2.1 (by decide)).trans (by decide),
    ((sp_ai_status_synonym_folding "bogus").2.2.2.2 (by decide)).trans (by decide)⟩

/-- C9: activating with `extra_data === null` logs an error and returns the
no-op handler — no widget state is constructed (the result is `.noop`, not a
`.widget` carrying the safe default state), and the returned handler ignores
every subsequent event list. -/
theorem sp_ai_activate_null_noop :
    activate .null = (.noop, true)
    ∧ (∀ events : List JVal, activation_handle_events (activate .null).1 events = .noop) :=
  ⟨rfl, fun _ => rfl⟩

/-- C7: `append_output` composes as string concatenation — applying two
append events equals applying one event with the concatenated chunk (so
"a" then "b" from empty output yields "ab", the same as a single "ab"), and
no characters are dropped or reordered across events. -/
theorem sp_ai_append_output_concat :
    (∀ (state : WidgetState) (c1 c2 : String),
      apply_inbound_event (apply_inbound_event state (.append_output c1)) (.append_output c2)
        = apply_inbound_event state (.append_output (c1 ++ c2)))
    ∧ (apply_inbound_event (apply_inbound_event sp_ai_default_state (.append_output "a"))
        (.append_output "b")).output = "ab"
    ∧ (apply_inbound_event sp_ai_default_state (.append_output "ab")).output = "ab" := by
  refine ⟨?_, rfl, rfl⟩
  intro state c1 c2
  simp only [apply_inbound_event]
  by_cases h1 : state.output = ""
  · by_cases h2 : c1 = "" <;> simp [h1, h2]
  · have h3 : ¬ (state.output ++ c1 = "") := by
      intro hc
      apply h1
      have hd : state.output.data ++ c1.data = [] := by
        have := congrArg String.data hc
        simpa [String.data_append] using this
      exact String.ext (List.append_eq_nil.mp hd).1
    simp [h1, h3, String.append_assoc]

/-- C2: a `set_extra_data` event discards the prior state and recomputes it by
normalizing `event.extra_data` from scratch — the result does not depend on
any prior-state field; in particular, from a state with status "ok" and
output "X", a payload carrying only `status:"running"` yields output ""
(the normalizer's default), not "X". -/
theorem sp_ai_set_extra_data_replaces :
    (∀ (p : JVal) (s1 s2 : WidgetState), jIsNullish p = false →
      apply_inbound_event s1 (.set_extra_data p) = normalize_extra_data p
        ∧ apply_inbound_event s1 (.set_extra_data p) = apply_inbound_event s2 (.set_extra_data p))
    ∧ ((apply_inbound_event { sp_ai_default_state with status := "ok", output := "X" }
          (.set_extra_data (.obj [("status", .str "running")]))).output = ""
        ∧ (apply_inbound_event { sp_ai_default_state with status := "ok", output := "X" }
          (.set_extra_data (.obj [("status", .str "running")]))).status = "running") :=
  ⟨fun _ _ _ _ => ⟨rfl, rfl⟩, rfl, rfl⟩

/-- Witness for C2 at the `{status:"running"}` payload. -/
theorem sp_ai_set_extra_data_replaces_witness :
    jIsNullish (.obj [("status", .str "running")]) = false
      ∧ apply_inbound_event sp_ai_default_state
          (.set_extra_data (.obj [("status", .str "running")]))
        = normalize_extra_data (.obj [("status", .str "running")]) :=
  ⟨rfl, (sp_ai_set_extra_data_replaces.1 (.obj [("status", .str "running")])
    sp_ai_default_state sp_ai_default_state rfl).1⟩

/-- C3: an inbound event that fails the inbound-event schema (such as a
`set_status` with the out-of-enum status "bogus", or an unknown `type`) is
silently dropped — the state is left completely unchanged and the remaining
events are processed as if the bad event were absent. -/
theorem sp_ai_invalid_event_ignored :
    (∀ (state : WidgetState) (e : JVal) (rest : List JVal),
      parse_sp_ai_inbound_event e = none →
        handle_events state (e :: rest) = handle_events state rest)
    ∧ (∀ (state : WidgetState) (e : JVal),
      parse_sp_ai_inbound_event e = none → handle_events state [e] = state)
    ∧ parse_sp_ai_inbound_event
        (.obj [("type", .str "set_status"), ("status", .str "bogus")]) = none
    ∧ parse_sp_ai_inbound_event (.obj [("type", .str "frobnicate")]) = none := by
  refine ⟨?_, ?_, rfl, rfl⟩
  · intro state e rest h
    simp only [handle_events, List.foldl_cons, h]
  · intro state e h
    simp only [handle_events, List.foldl_cons, List.foldl_nil, h]

/-- Witness for C3 at the invalid-enum `set_status` event. -/
theorem sp_ai_invalid_event_ignored_witness :
    parse_sp_ai_inbound_event
        (.obj [("type", .str "set_status"), ("status", .str "bogus")]) = none
      ∧ handle_events sp_ai_default_state
          [.obj [("type", .str "set_status"), ("status", .str "bogus")]]
        = sp_ai_default_state :=
  ⟨rfl, sp_ai_invalid_event_ignored.2.1 sp_ai_default_state
    (.obj [("type", .str "set_status"), ("status", .str "bogus")]) rfl⟩

/-- C1: whenever the normalized candidate state fails the widget-state schema,
`normalize_extra_data` returns (without throwing — the model is total on
non-nullish payloads) the safe default base state — kind "final", status
"running", version 2, display "card_only", title "Agent output", empty
caption/tool/input/output and an empty block list — and logs the warning;
and for any object payload missing every recognized field the result is
exactly the documented default state with all group lists empty and all
has_X flags false (by the success path, so no warning). -/
theorem sp_ai_malformed_payload_defaults :
    (∀ ed : JVal, jIsNullish ed = false →
      widget_state_parse (widget_state_candidate ed) = none →
        (normalize_extra_data ed).kind = "final"
          ∧ (normalize_extra_data ed).status = "running"
          ∧ (normalize_extra_data ed).version = 2
          ∧ (normalize_extra_data ed).display = "card_only"
          ∧ (normalize_extra_data ed).title = "Agent output"
          ∧ (normalize_extra_data ed).caption = ""
          ∧ (normalize_extra_data ed).tool = ""
          ∧ (normalize_extra_data ed).input = ""
          ∧ (normalize_extra_data ed).output = ""
          ∧ (normalize_extra_data ed).blocks = []
          ∧ normalize_extra_data_warns ed = true)
    ∧ (∀ kvs : List (String × JVal),
        jget (.obj kvs) "version" = .undef → jget (.obj kvs) "display" = .undef →
        jget (.obj kvs) "title" = .undef → jget (.obj kvs) "caption" = .undef →
        jget (.obj kvs) "status" = .undef → jget (.obj kvs) "tool" = .undef →
        jget (.obj kvs) "input" = .undef → jget (.obj kvs) "output" = .undef →
        jget (.obj kvs) "turn" = .undef →
          normalize_extra_data (.obj kvs) = sp_ai_default_state
            ∧ normalize_extra_data_warns (.obj kvs) = false) := by
  constructor
  · intro ed _ hfail
    simp [normalize_extra_data, normalize_extra_data_warns,
      normalize_extra_data_core, hfail]
  · intro kvs h1 h2 h3 h4 h5 h6 h7 h8 h9
    have hcore : normalize_extra_data_core (.obj kvs) = (sp_ai_default_state, false) := by
      simp only [normalize_extra_data_core, widget_state_candidate,
        sp_ai_skip_block_indexes, normalize_subagent_groups, normalize_background_tasks,
        normalize_plan_blocks, normalize_todo_blocks, turn_blocks_of, jOr, jTruthy,
        if_true, ite_true, h1, h2, h3, h4, h5, h6, h7, h8, h9]
      rfl
    exact ⟨congrArg Prod.fst hcore, congrArg Prod.snd hcore⟩

/-- Witness for C1: the payload `{title: 5}` fails the schema (a recognized
field of the wrong type) and defaults with a warning; the empty object payload
normalizes to the documented default state. -/
theorem sp_ai_malformed_payload_defaults_witness :
    (jIsNullish (.obj [("title", .num (.val 5))]) = false
      ∧ widget_state_parse (widget_state_candidate (.obj [("title", .num (.val 5))])) = none
      ∧ (normalize_extra_data (.obj [("title", .num (.val 5))])).title = "Agent output"
      ∧ normalize_extra_data_warns (.obj [("title", .num (.val 5))]) = true)
    ∧ normalize_extra_data (.obj []) = sp_ai_default_state := by
  have h1 := sp_ai_malformed_payload_defaults.1 (.obj [("title", .num (.val 5))]) rfl rfl
  exact ⟨⟨rfl, rfl, h1.2.2.2.2.1, h1.2.2.2.2.2.2.2.2.2.2⟩,
    (sp_ai_malformed_payload_defaults.2 [] rfl rfl rfl rfl rfl rfl rfl rfl rfl).1⟩

/-- Erasing an entry the step function maps to `none` does not change a
`filterMap`. -/
theorem filterMap_eraseIdx_of_none {α β : Type} (f : α → Option β) :
    ∀ (l : List α) (i : ℕ) (a : α), l.get? i = some a → f a = none →
      (l.eraseIdx i).filterMap f = l.filterMap f := by
  intro l
  induction l with
  | nil => intro i a h _; simp at h
  | cons x rest ih =>
    intro i a h hf
    cases i with
    | zero =>
      simp only [List.get?_cons_zero, Option.some.injEq] at h
      subst h
      simp [List.eraseIdx, List.filterMap_cons, hf]
    | succ i =>
      simp only [List.get?_cons_succ] at h
      simp only [List.eraseIdx, List.filterMap_cons]
      cases hfx : f x <;> simp [hfx, ih i a h hf]

/-- The groups of the subagent scan are the `filterMap` of its loop body. -/
theorem subagent_groups_scan_fst :
    ∀ (bs : List JVal) (i0 : ℕ),
      (subagent_groups_scan i0 bs).1 = bs.filterMap subagent_group_step := by
  intro bs
  induction bs with
  | nil => intro _; rfl
  | cons b rest ih =>
    intro i0
    cases h : subagent_group_step b <;>
      simp [subagent_groups_scan, h, ih, List.filterMap_cons]

/-- Every consumed index of the subagent scan is at least the start index. -/
theorem subagent_groups_scan_skip_lb :
    ∀ (bs : List JVal) (i0 : ℕ), ∀ j ∈ (subagent_groups_scan i0 bs).2, i0 ≤ j := by
  intro bs
  induction bs with
  | nil => intro i0 j h; simp [subagent_groups_scan] at h
  | cons b rest ih =>
    intro i0 j h
    cases hs : subagent_group_step b <;> rw [subagent_groups_scan] at h <;>
      simp only [hs] at h
    · exact le_trans (Nat.le_succ i0) (ih (i0 + 1) j h)
    · rcases List.mem_cons.mp h with h | h
      · exact h ▸ le_refl i0
      · exact le_trans (Nat.le_succ i0) (ih (i0 + 1) j h)

/-- A block whose loop body contributes nothing is not consumed by the
subagent scan. -/
theorem subagent_groups_scan_skip_not_mem :
    ∀ (bs : List JVal) (i0 j : ℕ) (b : JVal),
      bs.get? j = some b → subagent_group_step b = none →
        i0 + j ∉ (subagent_groups_scan i0 bs).2 := by
  intro bs
  induction bs with
  | nil => intro i0 j b h _ _; simp at h
  | cons x rest ih =>
    intro i0 j b h hstep hmem
    cases j with
    | zero =>
      simp only [List.get?_cons_zero, Option.some.injEq] at h
      subst h
      rw [subagent_groups_scan] at hmem
      simp only [hstep] at hmem
      have := subagent_groups_scan_skip_lb rest (i0 + 1) _ hmem
      omega
    | succ j =>
      simp only [List.get?_cons_succ] at h
      rw [subagent_groups_scan] at hmem
      have hmem' : i0 + (j + 1) ∈ (subagent_groups_scan (i0 + 1) rest).2 := by
        cases hs : subagent_group_step x <;> simp only [hs] at hmem
        · exact hmem
        · rcases List.mem_cons.mp hmem with hp | hp
          · omega
          · exact hp
      have := ih (i0 + 1) j b h hstep
      rw [show i0 + 1 + j = i0 + (j + 1) by omega] at this
      exact this hmem'

/-- The groups of an indexed scan are the labelled `filterMap` of its loop
body. -/
theorem indexed_group_scan_fst {α : Type} (step : JVal → Option α) :
    ∀ (bs : List JVal) (i0 gi : ℕ),
      (indexed_group_scan step i0 gi bs).1 = group_label gi (bs.filterMap step) := by
  intro bs
  induction bs with
  | nil => intro _ _; rfl
  | cons b rest ih =>
    intro i0 gi
    cases h : step b <;>
      simp [indexed_group_scan, h, ih, List.filterMap_cons, group_label]

/-- Every consumed index of an indexed scan is at least the start index. -/
theorem indexed_group_scan_skip_lb {α : Type} (step : JVal → Option α) :
    ∀ (bs : List JVal) (i0 gi : ℕ), ∀ j ∈ (indexed_group_scan step i0 gi bs).2, i0 ≤ j := by
  intro bs
  induction bs with
  | nil => intro i0 gi j h; simp [indexed_group_scan] at h
  | cons b rest ih =>
    intro i0 gi j h
    cases hs : step b <;> rw [indexed_group_scan] at h <;> simp only [hs] at h
    · exact le_trans (Nat.le_succ i0) (ih (i0 + 1) gi j h)
    · rcases List.mem_cons.mp h with h | h
      · exact h ▸ le_refl i0
      · exact le_trans (Nat.le_succ i0) (ih (i0 + 1) (gi + 1) j h)

/-- A block whose loop body contributes nothing is not consumed by an indexed
scan. -/
theorem indexed_group_scan_skip_not_mem {α : Type} (step : JVal → Option α) :
    ∀ (bs : List JVal) (i0 gi j : ℕ) (b : JVal),
      bs.get? j = some b → step b = none →
        i0 + j ∉ (indexed_group_scan step i0 gi bs).2 := by
  intro bs
  induction bs with
  | nil => intro i0 gi j b h _ _; simp at h
  | cons x rest ih =>
    intro i0 gi j b h hstep hmem
    cases j with
    | zero =>
      simp only [List.get?_cons_zero, Option.some.injEq] at h
      subst h
      rw [indexed_group_scan] at hmem
      simp only [hstep] at hmem
      have := indexed_group_scan_skip_lb step rest (i0 + 1) gi _ hmem
      omega
    | succ j =>
      simp only [List.get?_cons_succ] at h
      rw [indexed_group_scan] at hmem
      have hmem' : ∃ gi', i0 + (j + 1) ∈ (indexed_group_scan step (i0 + 1) gi' rest).2 := by
        cases hs : step x <;> simp only [hs] at hmem
        · exact ⟨gi, hmem⟩
        · rcases List.mem_cons.mp hmem with hp | hp
          · omega
          · exact ⟨gi + 1, hp⟩
      obtain ⟨gi', hmem'⟩ := hmem'
      have := ih (i0 + 1) gi' j b h hstep
      rw [show i0 + 1 + j = i0 + (j + 1) by omega] at this
      exact this hmem'

/-- Normalized background tasks that are empty in every reportable field are
all removed by the keep-filter. -/
theorem background_tasks_filter_empty :
    ∀ (ts : List SpAiBackgroundTask) (n : ℕ),
      (∀ t ∈ ts, t.command.getD "" = "" ∧ t.description.getD "" = ""
        ∧ t.outputPreview.getD "" = "" ∧ t.error.getD "" = "") →
      ((List.enumFrom n ts).map (fun p => normalize_one_background_task p.1 p.2)).filter
        background_task_keep = [] := by
  intro ts
  induction ts with
  | nil => intro n _; rfl
  | cons t rest ih =>
    intro n h
    have ht := h t (List.mem_cons_self t rest)
    have hkeep : background_task_keep (normalize_one_background_task n t) = false := by
      simp [normalize_one_background_task, background_task_keep,
        ht.1, ht.2.1, ht.2.2.1, ht.2.2.2]
    simp [List.filter_cons, hkeep, ih (n + 1) (fun t' ht' => h t' (List.mem_cons_of_mem t ht'))]

/-- C8: empty groups are suppressed — a subagent-group block parsing with an
empty agents list and empty fallback text contributes zero subagent groups and
is not marked consumed, and a background-tasks block all of whose tasks are
empty (no command, description, output preview or error) is filtered to zero
tasks, so the whole group is dropped and the block is not consumed; in both
cases the extracted group list is the same as if the block were absent. -/
theorem sp_ai_empty_group_suppression :
    (∀ (bs : List JVal) (i : ℕ) (b : JVal) (pb : SpAiSubagentGroupBlock),
      bs.get? i = some b →
      parse_sp_ai_subagent_group_block b = some pb →
      pb.agents.getD [] = [] → pb.text.getD "" = "" →
        i ∉ (subagent_groups_scan 0 bs).2
          ∧ (subagent_groups_scan 0 (bs.eraseIdx i)).1 = (subagent_groups_scan 0 bs).1)
    ∧ (∀ (bs : List JVal) (i : ℕ) (b : JVal) (gb : SpAiBackgroundTasksBlock),
      bs.get? i = some b →
      parse_sp_ai_background_tasks_block b = some gb →
      (∀ t ∈ gb.tasks.getD [],
        t.command.getD "" = "" ∧ t.description.getD "" = ""
          ∧ t.outputPreview.getD "" = "" ∧ t.error.getD "" = "") →
        i ∉ (indexed_group_scan background_tasks_step 0 0 bs).2
          ∧ (indexed_group_scan background_tasks_step 0 0 (bs.eraseIdx i)).1
              = (indexed_group_scan background_tasks_step 0 0 bs).1) := by
  constructor
  · intro bs i b pb hget hparse hagents htext
    have hstep : subagent_group_step b = none := by
      simp [subagent_group_step, hparse, hagents, htext]
    constructor
    · have := subagent_groups_scan_skip_not_mem bs 0 i b hget hstep
      simpa using this
    · rw [subagent_groups_scan_fst, subagent_groups_scan_fst,
        filterMap_eraseIdx_of_none subagent_group_step bs i b hget hstep]
  · intro bs i b gb hget hparse hempty
    have hstep : background_tasks_step b = none := by
      by_cases h0 : gb.tasks.getD [] = []
      · simp [background_tasks_step, hparse, h0]
      · have hf := background_tasks_filter_empty (gb.tasks.getD []) 0 hempty
        simp [background_tasks_step, hparse, h0, List.enum, hf]
    constructor
    · have := indexed_group_scan_skip_not_mem background_tasks_step bs 0 0 i b hget hstep
      simpa using this
    · rw [indexed_group_scan_fst, indexed_group_scan_fst,
        filterMap_eraseIdx_of_none background_tasks_step bs i b hget hstep]

/-- Witness for C8: a `{kind:"subagent_group", agents:[], text:""}` block and
a `{kind:"background_tasks", tasks:[{command:""}]}` block each contribute no
group and are not consumed. -/
theorem sp_ai_empty_group_suppression_witness :
    (parse_sp_ai_subagent_group_block
        (.obj [("kind", .str "subagent_group"), ("agents", .arr []), ("text", .str "")])
      = some ⟨none, some [], some ""⟩
      ∧ 0 ∉ (subagent_groups_scan 0
          [.obj [("kind", .str "subagent_group"), ("agents", .arr []), ("text", .str "")]]).2
      ∧ (subagent_groups_scan 0
          ([(.obj [("kind", .str "subagent_group"), ("agents", .arr []), ("text", .str "")] : JVal)].eraseIdx 0)).1
        = (subagent_groups_scan 0
          [.obj [("kind", .str "subagent_group"), ("agents", .arr []), ("text", .str "")]]).1)
    ∧ (parse_sp_ai_background_tasks_block
        (.obj [("kind", .str "background_tasks"), ("tasks", .arr [.obj [("command", .str "")]])])
      = some ⟨"background_tasks", none, some [⟨none, none, some "", none, none, none, none, none⟩]⟩
      ∧ 0 ∉ (indexed_group_scan background_tasks_step 0 0
          [.obj [("kind", .str "background_tasks"), ("tasks", .arr [.obj [("command", .str "")]])]]).2) := by
  have h1 := sp_ai_empty_group_suppression.1
    [.obj [("kind", .str "subagent_group"), ("agents", .arr []), ("text", .str "")]]
    0 _ ⟨none, some [], some ""⟩ rfl rfl rfl rfl
  have h2 := sp_ai_empty_group_suppression.2
    [.obj [("kind", .str "background_tasks"), ("tasks", .arr [.obj [("command", .str "")]])]]
    0 _ ⟨"background_tasks", none, some [⟨none, none, some "", none, none, none, none, none⟩]⟩
    rfl rfl (by intro t ht; simp at ht; subst ht; exact ⟨rfl, rfl, rfl, rfl⟩)
  exact ⟨⟨rfl, h1.1, h1.2⟩, ⟨rfl, h2.1⟩⟩

set_option maxHeartbeats 2000000 in
/-- Every path of the per-block body emits a block carrying its original
array index. -/
theorem normalize_one_block_index (i : ℕ) (raw : JVal) :
    (normalize_one_block i raw).index = i := by
  simp only [normalize_one_block]
  split
  · rfl
  · rfl

/-- The indexed loop of `normalize_turn_blocks` keeps exactly the entries
that are outside the skip set and are (non-null) objects, in order, with
their original indices. -/
theorem normalize_turn_blocks_go_map_index (skip : List ℕ) :
    ∀ (xs : List JVal) (i : ℕ),
      (normalize_turn_blocks_go skip i xs).map (fun b => b.index)
        = ((List.enumFrom i xs).filter
            (fun p => !skip.contains p.1 && (jTruthy p.2 && jIsRecordLike p.2))).map
              Prod.fst := by
  intro xs
  induction xs with
  | nil => intro _; rfl
  | cons b rest ih =>
    intro i
    by_cases hc : i ∈ skip
    · simp [normalize_turn_blocks_go, hc, ih]
    · by_cases h1 : jTruthy b = true <;> by_cases h2 : jIsRecordLike b = true <;>
        simp [normalize_turn_blocks_go, hc, h1, h2, ih, normalize_one_block_index]

/-- C4 counterexample: the claim says the emitted `index` values omit exactly
the specialized-extractor-consumed indices, so on the block array `["note"]`
with nothing consumed they would have to be `[0]`; the code also silently
drops non-object entries, emitting nothing. -/
theorem sp_ai_block_order_counterexample :
    (normalize_turn_blocks (.arr [.str "note"]) []).map (fun b => b.index) = []
      ∧ ¬ ((normalize_turn_blocks (.arr [.str "note"]) []).map (fun b => b.index) = [0]) := by
  exact ⟨rfl, by decide⟩

/-- C4 (amended): the flat block list's `index` values are a strictly
increasing subsequence of the original array's indices, and the removed
indices are exactly the specialized-extractor-consumed indices together with
the indices of non-object entries (null or primitive array elements). -/
theorem sp_ai_block_order_amended (xs : List JVal) (skip : List ℕ) :
    ((normalize_turn_blocks (.arr xs) skip).map (fun b => b.index)
        = ((List.enumFrom 0 xs).filter
            (fun p => !skip.contains p.1 && (jTruthy p.2 && jIsRecordLike p.2))).map
              Prod.fst)
    ∧ ((normalize_turn_blocks (.arr xs) skip).map (fun b => b.index)).Pairwise (· < ·)
    ∧ ((normalize_turn_blocks (.arr xs) skip).map (fun b => b.index)).Sublist
        (List.range xs.length) := by
  have hchar : (normalize_turn_blocks (.arr xs) skip).map (fun b => b.index)
      = ((List.enumFrom 0 xs).filter
          (fun p => !skip.contains p.1 && (jTruthy p.2 && jIsRecordLike p.2))).map
            Prod.fst :=
    normalize_turn_blocks_go_map_index skip xs 0
  have hsub : List.Sublist
      (((List.enumFrom 0 xs).filter
        (fun p => !skip.contains p.1 && (jTruthy p.2 && jIsRecordLike p.2))).map Prod.fst)
      ((List.enumFrom 0 xs).map Prod.fst) :=
    (List.filter_sublist _).map Prod.fst
  have hfst : (List.enumFrom 0 xs).map Prod.fst = List.range xs.length := by
    rw [List.enumFrom_map_fst, ← List.range_eq_range']
  refine ⟨hchar, ?_, ?_⟩
  · rw [hchar]
    exact List.Pairwise.sublist (hfst ▸ hsub) (List.pairwise_lt_range xs.length)
  · rw [hchar]
    exact hfst ▸ hsub

end SpAi
